import Mathlib

/-!
Mangadualist: the display, input and main loop code of display_sdl.c and
main.c.

A shallow embedding of the surface table (create_surface, free_surface,
free_surfaces, display_init), the frame composition (display,
display_update_window, display_movie), the input translation (key_status,
display_handle_events, display_toggle_pause), the palette tables
(create_palettes, get_rgb_mask) and the main loop (main_loop), with the
properties proved about them.

Conventions of the embedding.
* A pointer to an SDL surface is a natural number, 0 being NULL.
* Uint32 arithmetic is arithmetic modulo 2^32 on Nat; the casts to 16 and
  32 bit integers are functions on Int.
* A C for loop is a function recursing on the number of iterations that
  remain, carrying the loop index.
* Calls into SDL and into modules outside these two files are recorded in
  a log where a property is about them, and are arguments where the code
  reads their result.
-/

namespace Mangadualist

/-! ## Surface registry -/

/-- Size of the surface table: the constant MAX_OF_SURFACES. -/
def MAX_OF_SURFACES : Nat := 100

/-- Pointer to an SDL surface; the value 0 is the NULL pointer. -/
abbrev SurfacePtr := Nat

/-- Modulus of the Uint32 type. -/
def UINT32_SIZE : Nat := 4294967296

/-- The statement c++ on a Uint32. -/
def uint32_inc (c : Nat) : Nat := (c + 1) % UINT32_SIZE

/-- The statement c-- on a Uint32. -/
def uint32_dec (c : Nat) : Nat := (c + UINT32_SIZE - 1) % UINT32_SIZE

/-- The two statics of the registry: the slot table surfaces_list and the
live counter surfaces_counter. -/
structure Registry where
  surfaces_list : List SurfacePtr
  surfaces_counter : Nat
deriving DecidableEq, Repr

/-- Typing of the statics: the table has MAX_OF_SURFACES entries and the
counter is a Uint32. -/
def Registry.WellTyped (s : Registry) : Prop :=
  s.surfaces_list.length = MAX_OF_SURFACES ∧ s.surfaces_counter < UINT32_SIZE

instance (s : Registry) : Decidable s.WellTyped := by
  unfold Registry.WellTyped; exact inferInstance

/-- Program start: static storage is zero-initialised. -/
def startup : Registry :=
  { surfaces_list := List.replicate MAX_OF_SURFACES 0, surfaces_counter := 0 }

/-- Loop of display_init: surfaces_list[i] = NULL for i from the given
index, for the given number of remaining iterations. -/
def display_init_loop (l : List SurfacePtr) : Nat → Nat → List SurfacePtr
  | 0, _ => l
  | n + 1, i => display_init_loop (l.set i 0) n (i + 1)

/-- The registry part of display_init: every slot is set to NULL. -/
def display_init (s : Registry) : Registry :=
  { s with surfaces_list := display_init_loop s.surfaces_list MAX_OF_SURFACES 0 }

/-- Slot search of create_surface: index starts at -1 and becomes the
first i with surfaces_list[i] == NULL, where the loop breaks. -/
def create_surface_scan (l : List SurfacePtr) : Nat → Nat → Int
  | 0, _ => -1
  | n + 1, i => if l.getD i 0 = 0 then (i : Int) else create_surface_scan l n (i + 1)

/-- The function create_surface. The argument backend is the pointer that
SDL_CreateRGBSurface returns when it is called (0 when it fails). The
result is the returned pointer and the registry afterwards. -/
def create_surface (s : Registry) (backend : SurfacePtr) : SurfacePtr × Registry :=
  let index := create_surface_scan s.surfaces_list MAX_OF_SURFACES 0
  if index < 0 then (0, s)
  else if backend = 0 then (0, s)
  else (backend,
    { surfaces_list := s.surfaces_list.set index.toNat backend,
      surfaces_counter := uint32_inc s.surfaces_counter })

/-- Loop of free_surface. At the first slot equal to the argument the
surface is read (surface->w, surface->h), released, the slot is cleared
and the counter decremented, and the loop breaks. The result none is the
read of a field through the NULL pointer. -/
def free_surface_loop (surface : SurfacePtr) (s : Registry) : Nat → Nat → Option Registry
  | 0, _ => some s
  | n + 1, i =>
    if s.surfaces_list.getD i 0 = surface then
      if surface = 0 then none
      else some
        { surfaces_list := s.surfaces_list.set i 0,
          surfaces_counter := uint32_dec s.surfaces_counter }
    else free_surface_loop surface s n (i + 1)

/-- The function free_surface. -/
def free_surface (s : Registry) (surface : SurfacePtr) : Option Registry :=
  free_surface_loop surface s MAX_OF_SURFACES 0

/-- Loop of free_surfaces: NULL slots are skipped, every other slot is
released, cleared, and the counter decremented. -/
def free_surfaces_loop : Registry → Nat → Nat → Registry
  | s, 0, _ => s
  | s, n + 1, i =>
    if s.surfaces_list.getD i 0 = 0 then free_surfaces_loop s n (i + 1)
    else free_surfaces_loop
      { surfaces_list := s.surfaces_list.set i 0,
        surfaces_counter := uint32_dec s.surfaces_counter } n (i + 1)

/-- The function free_surfaces. -/
def free_surfaces (s : Registry) : Registry :=
  free_surfaces_loop s MAX_OF_SURFACES 0

/-- Number of non-null slots of the table. -/
def live_count (s : Registry) : Nat :=
  (s.surfaces_list.filter (fun p => decide (p ≠ 0))).length

/-- No handle occupies two slots: the non-null entries are pairwise
distinct. -/
def distinct_handles (s : Registry) : Prop :=
  (s.surfaces_list.filter (fun p => decide (p ≠ 0))).Nodup

instance (s : Registry) : Decidable (distinct_handles s) := by
  unfold distinct_handles; exact inferInstance

/-- Every slot of the table is occupied. -/
def is_full (s : Registry) : Prop :=
  ∀ p ∈ s.surfaces_list, p ≠ 0

instance (s : Registry) : Decidable (is_full s) := by
  unfold is_full; exact inferInstance

/-- A run of consecutive create_surface calls, one per backend pointer;
the result is the list of returned pointers and the final registry. -/
def create_surfaces : Registry → List SurfacePtr → List SurfacePtr × Registry
  | s, [] => ([], s)
  | s, p :: ps =>
    let r := create_surface s p
    let rest := create_surfaces r.2 ps
    (r.1 :: rest.1, rest.2)

/-! ## Frame composition -/

/-- Conversion of an integer to Sint16, as the cast (Sint16) does. -/
def to_Sint16 (v : Int) : Int := (v + 32768) % 65536 - 32768

/-- Conversion of an integer to Uint16, as the cast (Uint16) does. -/
def to_Uint16 (v : Int) : Int := v % 65536

/-- The value is in the range of Sint16. -/
def fits_Sint16 (v : Int) : Prop := -32768 ≤ v ∧ v ≤ 32767

instance (v : Int) : Decidable (fits_Sint16 v) := by
  unfold fits_Sint16; exact inferInstance

/-- The SDL surfaces that display_sdl.c blits between. -/
inductive Surface where
  | game_surface
  | options_surface
  | score_surface
  | movie_surface
  | public_surface
deriving DecidableEq, Repr

/-- The SDL2 rectangle: four int fields. -/
structure SDL_Rect where
  x : Int
  y : Int
  w : Int
  h : Int
deriving DecidableEq, Repr

/-- One call of SDL_BlitSurface: source surface and rectangle, destination
surface and rectangle, as passed. -/
structure Blit where
  src : Surface
  srcrect : SDL_Rect
  dst : Surface
  dstrect : SDL_Rect
deriving DecidableEq, Repr

/-- One entry of the options_refresh table. -/
structure OptionRefresh where
  coord_x : Int
  coord_y : Int
deriving DecidableEq, Repr

/-- The globals that display reads and writes. The geometry values and the
three panel constants are declared in headers that are not among the
sources, so they are fields without a fixed value. The field blits is the
log of the SDL_BlitSurface calls made so far, oldest first. -/
structure Display where
  offscreen_clipsize : Int
  offscreen_width_visible : Int
  offscreen_height_visible : Int
  display_width : Int
  display_height : Int
  score_offscreen_width : Int
  OPTIONS_WIDTH : Int
  OPTIONS_HEIGHT : Int
  SCORES_HEIGHT : Int
  movie_surface : SurfacePtr
  update_all : Bool
  opt_refresh_index : Int
  options_refresh : List OptionRefresh
  score_x2_refresh : Bool
  score_x4_refresh : Bool
  energy_gauge_spaceship_is_update : Bool
  energy_gauge_guard_is_update : Bool
  is_player_score_displayed : Bool
  blits : List Blit
deriving DecidableEq, Repr

/-- The function get_rect: its four parameters are Sint16, so every
argument is converted on the call. -/
def get_rect (x y w h : Int) : SDL_Rect :=
  { x := to_Sint16 x, y := to_Sint16 y, w := to_Sint16 w, h := to_Sint16 h }

/-- A call of SDL_BlitSurface, recorded in the log. The return value only
selects whether an error is logged, so it is not modelled. -/
def SDL_BlitSurface (d : Display) (src : Surface) (srcrect : SDL_Rect) (dst : Surface)
    (dstrect : SDL_Rect) : Display :=
  { d with blits := d.blits ++ [{ src := src, srcrect := srcrect, dst := dst, dstrect := dstrect }] }

/-- The unconditional blit of the game viewport that opens display. -/
def display_viewport (d : Display) : Display :=
  SDL_BlitSurface d Surface.game_surface
    { x := to_Sint16 d.offscreen_clipsize, y := to_Sint16 d.offscreen_clipsize,
      w := to_Uint16 d.offscreen_width_visible, h := to_Uint16 d.offscreen_height_visible }
    Surface.public_surface (get_rect 0 16 d.display_width d.display_height)

/-- The branch of display taken when update_all is set. -/
def display_full (d : Display) : Display :=
  let d1 := SDL_BlitSurface d Surface.options_surface
    { x := 0, y := 0, w := d.OPTIONS_WIDTH, h := d.OPTIONS_HEIGHT }
    Surface.public_surface
    (get_rect d.offscreen_width_visible 16 d.OPTIONS_WIDTH d.OPTIONS_HEIGHT)
  let d2 := SDL_BlitSurface d1 Surface.score_surface
    { x := 0, y := 0, w := to_Uint16 d.score_offscreen_width, h := d.SCORES_HEIGHT }
    Surface.public_surface (get_rect 0 0 d.display_width d.SCORES_HEIGHT)
  { d2 with opt_refresh_index := -1, update_all := false }

/-- Body of the while loop of display: the entry at opt_refresh_index is
read, the index is decremented, and the 28x28 square is blitted. A read
past the end of the table yields the entry (0, 0). -/
def display_options_step (d : Display) : Display :=
  let entry := d.options_refresh.getD d.opt_refresh_index.toNat { coord_x := 0, coord_y := 0 }
  let optx := entry.coord_x
  let opty := entry.coord_y
  SDL_BlitSurface { d with opt_refresh_index := d.opt_refresh_index - 1 }
    Surface.options_surface
    { x := to_Sint16 optx, y := to_Sint16 opty, w := 28, h := 28 }
    Surface.public_surface
    (get_rect (d.offscreen_width_visible + optx) (16 + opty) 28 28)

/-- The loop while (opt_refresh_index >= 0), with a bound on the number of
iterations. -/
def display_options_loop : Nat → Display → Display
  | 0, d => d
  | fuel + 1, d =>
    if d.opt_refresh_index ≥ 0 then display_options_loop fuel (display_options_step d)
    else d

/-- The x2 icon step of the incremental branch. -/
def display_score_x2 (d : Display) : Display :=
  if d.score_x2_refresh || !d.update_all then
    { SDL_BlitSurface d Surface.options_surface { x := 41, y := 171, w := 14, h := 8 }
        Surface.public_surface (get_rect 297 187 14 8) with score_x2_refresh := false }
  else d

/-- The x4 icon step of the incremental branch. -/
def display_score_x4 (d : Display) : Display :=
  if d.score_x4_refresh || !d.update_all then
    { SDL_BlitSurface d Surface.options_surface { x := 41, y := 5, w := 14, h := 8 }
        Surface.public_surface (get_rect 297 21 14 8) with score_x4_refresh := false }
  else d

/-- The player energy step: SDL_BlitSurface is called once for the
assignment to optx and once more in the condition of the if. The second
call receives the destination rectangle as the first call left it; the
model records the rectangle that get_rect built for both. -/
def display_energy_spaceship (d : Display) : Display :=
  if d.energy_gauge_spaceship_is_update then
    let d1 := SDL_BlitSurface d Surface.score_surface { x := 210, y := 3, w := 100, h := 9 }
      Surface.public_surface (get_rect 210 3 100 9)
    let d2 := SDL_BlitSurface d1 Surface.score_surface { x := 210, y := 3, w := 100, h := 9 }
      Surface.public_surface (get_rect 210 3 100 9)
    { d2 with energy_gauge_spaceship_is_update := false }
  else d

/-- The boss energy step. -/
def display_energy_guard (d : Display) : Display :=
  if d.energy_gauge_guard_is_update then
    { SDL_BlitSurface d Surface.score_surface { x := 10, y := 3, w := 45, h := 9 }
        Surface.public_surface (get_rect 10 3 45 9) with energy_gauge_guard_is_update := false }
  else d

/-- The score digits step. -/
def display_player_score (d : Display) : Display :=
  if d.is_player_score_displayed then
    { SDL_BlitSurface d Surface.score_surface { x := 68, y := 0, w := 128, h := 16 }
        Surface.public_surface (get_rect 68 0 128 16) with is_player_score_displayed := false }
  else d

/-- The branch of display taken when update_all is clear. The loop is
given opt_refresh_index + 1 iterations, the number it needs to reach -1. -/
def display_incremental (d : Display) : Display :=
  let d1 := display_options_loop (d.opt_refresh_index + 1).toNat d
  let d2 := display_score_x2 d1
  let d3 := display_score_x4 d2
  let d4 := display_energy_spaceship d3
  let d5 := display_energy_guard d4
  display_player_score d5

/-- The function display, up to the presentation of public_surface. -/
def display (d : Display) : Display :=
  let d1 := display_viewport d
  if d1.update_all then display_full d1 else display_incremental d1

/-- The blit of display_movie. The conversion of the movie frame into
movie_offscreen writes pixels only and is not modelled. -/
def display_movie (d : Display) : Display :=
  SDL_BlitSurface d Surface.movie_surface (get_rect 0 0 d.display_width d.display_height)
    Surface.public_surface (get_rect 0 0 d.display_width d.display_height)

/-- The function display_update_window. -/
def display_update_window (d : Display) : Display :=
  if d.movie_surface ≠ 0 then display_movie { d with update_all := true }
  else display d

/-- The blits that a composition added to the log. -/
def issued (before after : Display) : List Blit :=
  after.blits.drop before.blits.length

/-- The viewport blit: the visible part of game_surface to row 16 of
public_surface. -/
def viewport_blit (d : Display) : Blit :=
  { src := Surface.game_surface,
    srcrect := { x := to_Sint16 d.offscreen_clipsize, y := to_Sint16 d.offscreen_clipsize,
                 w := to_Uint16 d.offscreen_width_visible,
                 h := to_Uint16 d.offscreen_height_visible },
    dst := Surface.public_surface,
    dstrect := { x := 0, y := 16, w := to_Sint16 d.display_width,
                 h := to_Sint16 d.display_height } }

/-- The whole option panel, to the right of the viewport. -/
def option_panel_blit (d : Display) : Blit :=
  { src := Surface.options_surface,
    srcrect := { x := 0, y := 0, w := d.OPTIONS_WIDTH, h := d.OPTIONS_HEIGHT },
    dst := Surface.public_surface,
    dstrect := { x := to_Sint16 d.offscreen_width_visible, y := 16,
                 w := to_Sint16 d.OPTIONS_WIDTH, h := to_Sint16 d.OPTIONS_HEIGHT } }

/-- The whole score panel, to the top left corner. -/
def score_panel_blit (d : Display) : Blit :=
  { src := Surface.score_surface,
    srcrect := { x := 0, y := 0, w := to_Uint16 d.score_offscreen_width, h := d.SCORES_HEIGHT },
    dst := Surface.public_surface,
    dstrect := { x := 0, y := 0, w := to_Sint16 d.display_width,
                 h := to_Sint16 d.SCORES_HEIGHT } }

/-- The 28x28 square of entry i of the options_refresh table, with the
coordinates converted as the code converts them. -/
def option_entry_blit (d : Display) (i : Nat) : Blit :=
  { src := Surface.options_surface,
    srcrect := { x := to_Sint16 (d.options_refresh.getD i { coord_x := 0, coord_y := 0 }).coord_x,
                 y := to_Sint16 (d.options_refresh.getD i { coord_x := 0, coord_y := 0 }).coord_y,
                 w := 28, h := 28 },
    dst := Surface.public_surface,
    dstrect :=
      { x := to_Sint16 (d.offscreen_width_visible +
                (d.options_refresh.getD i { coord_x := 0, coord_y := 0 }).coord_x),
        y := to_Sint16 (16 + (d.options_refresh.getD i { coord_x := 0, coord_y := 0 }).coord_y),
        w := 28, h := 28 } }

/-- The x2 multiplier icon. -/
def score_x2_blit : Blit :=
  { src := Surface.options_surface, srcrect := { x := 41, y := 171, w := 14, h := 8 },
    dst := Surface.public_surface, dstrect := { x := 297, y := 187, w := 14, h := 8 } }

/-- The x4 multiplier icon. -/
def score_x4_blit : Blit :=
  { src := Surface.options_surface, srcrect := { x := 41, y := 5, w := 14, h := 8 },
    dst := Surface.public_surface, dstrect := { x := 297, y := 21, w := 14, h := 8 } }

/-- The player energy bar. -/
def energy_spaceship_blit : Blit :=
  { src := Surface.score_surface, srcrect := { x := 210, y := 3, w := 100, h := 9 },
    dst := Surface.public_surface, dstrect := { x := 210, y := 3, w := 100, h := 9 } }

/-- The boss energy bar. -/
def energy_guard_blit : Blit :=
  { src := Surface.score_surface, srcrect := { x := 10, y := 3, w := 45, h := 9 },
    dst := Surface.public_surface, dstrect := { x := 10, y := 3, w := 45, h := 9 } }

/-- The score digits. -/
def player_score_blit : Blit :=
  { src := Surface.score_surface, srcrect := { x := 68, y := 0, w := 128, h := 16 },
    dst := Surface.public_surface, dstrect := { x := 68, y := 0, w := 128, h := 16 } }

/-- The blits of the three flagged HUD steps, in the order of the code. -/
def hud_blits (d : Display) : List Blit :=
  (if d.energy_gauge_spaceship_is_update then [energy_spaceship_blit, energy_spaceship_blit]
    else []) ++
  (if d.energy_gauge_guard_is_update then [energy_guard_blit] else []) ++
  (if d.is_player_score_displayed then [player_score_blit] else [])

/-- The blit of an option square with the coordinates taken as they stand
in the table entry, without conversion: from (x, y, 28, 28) of the option
panel to (offscreen_width_visible + x, 16 + y, 28, 28). -/
def option_square_blit (offscreen_width_visible : Int) (e : OptionRefresh) : Blit :=
  { src := Surface.options_surface,
    srcrect := { x := e.coord_x, y := e.coord_y, w := 28, h := 28 },
    dst := Surface.public_surface,
    dstrect := { x := offscreen_width_visible + e.coord_x, y := 16 + e.coord_y,
                 w := 28, h := 28 } }

/-- The coordinates of a table entry and the destination computed from
them are in the range of Sint16, so that the casts of display leave them
as they are. -/
def entry_fits (offscreen_width_visible : Int) (e : OptionRefresh) : Prop :=
  fits_Sint16 e.coord_x ∧ fits_Sint16 e.coord_y ∧
    fits_Sint16 (offscreen_width_visible + e.coord_x) ∧ fits_Sint16 (16 + e.coord_y)

instance (w : Int) (e : OptionRefresh) : Decidable (entry_fits w e) := by
  unfold entry_fits; exact inferInstance

/-- The blit of an option square as display issues it for a table entry:
the coordinates go through the (Sint16) casts of the code. -/
def option_cast_blit (offscreen_width_visible : Int) (e : OptionRefresh) : Blit :=
  { src := Surface.options_surface,
    srcrect := { x := to_Sint16 e.coord_x, y := to_Sint16 e.coord_y, w := 28, h := 28 },
    dst := Surface.public_surface,
    dstrect := { x := to_Sint16 (offscreen_width_visible + e.coord_x),
                 y := to_Sint16 (16 + e.coord_y), w := 28, h := 28 } }

/-- A state used in the examples: a 320x200 layout with a 256x184
viewport, a 64x184 option panel and 16 score rows, a table of three
pending option squares, no movie, and an empty log. -/
def sample_display (update_all : Bool) (index : Int) (x2 x4 ship guard score : Bool) :
    Display :=
  { offscreen_clipsize := 128, offscreen_width_visible := 256,
    offscreen_height_visible := 184, display_width := 320, display_height := 200,
    score_offscreen_width := 320, OPTIONS_WIDTH := 64, OPTIONS_HEIGHT := 184,
    SCORES_HEIGHT := 16, movie_surface := 0, update_all := update_all,
    opt_refresh_index := index,
    options_refresh := [{ coord_x := 4, coord_y := 10 }, { coord_x := 34, coord_y := 10 },
                        { coord_x := 4, coord_y := 40 }],
    score_x2_refresh := x2, score_x4_refresh := x4,
    energy_gauge_spaceship_is_update := ship, energy_gauge_guard_is_update := guard,
    is_player_score_displayed := score, blits := [] }

/-! ## Input translation -/

/-- Conversion of an integer to Uint32, as the cast (Uint32) does. -/
def to_Uint32 (v : Int) : Int := v % 4294967296

/-- Conversion of an integer to Sint32, as the conversion of a Uint32 value
to a Sint32 parameter does on a two's complement machine. -/
def to_Sint32 (v : Int) : Int := (v + 2147483648) % 4294967296 - 2147483648

/-- The value is in the range of Sint32. -/
def fits_Sint32 (v : Int) : Prop := -2147483648 ≤ v ∧ v ≤ 2147483647

instance (v : Int) : Decidable (fits_Sint32 v) := by
  unfold fits_Sint32; exact inferInstance

/-- The SDL2 window event identifier SDL_WINDOWEVENT_EXPOSED. -/
def SDL_WINDOWEVENT_EXPOSED : Nat := 3

/-- The SDL2 window event identifier SDL_WINDOWEVENT_ENTER. -/
def SDL_WINDOWEVENT_ENTER : Nat := 10

/-- The SDL2 window event identifier SDL_WINDOWEVENT_FOCUS_GAINED. -/
def SDL_WINDOWEVENT_FOCUS_GAINED : Nat := 12

/-- The SDL2 window event identifier SDL_WINDOWEVENT_FOCUS_LOST. -/
def SDL_WINDOWEVENT_FOCUS_LOST : Nat := 13

/-- The SDL2 hat position SDL_HAT_CENTERED. -/
def SDL_HAT_CENTERED : Nat := 0

/-- The SDL2 hat bit SDL_HAT_UP. -/
def SDL_HAT_UP : Nat := 1

/-- The SDL2 hat bit SDL_HAT_RIGHT. -/
def SDL_HAT_RIGHT : Nat := 2

/-- The SDL2 hat bit SDL_HAT_DOWN. -/
def SDL_HAT_DOWN : Nat := 4

/-- The SDL2 hat bit SDL_HAT_LEFT. -/
def SDL_HAT_LEFT : Nat := 8

/-- The SDL2 hat position SDL_HAT_RIGHTUP, the union of right and up. -/
def SDL_HAT_RIGHTUP : Nat := 3

/-- The SDL2 hat position SDL_HAT_RIGHTDOWN. -/
def SDL_HAT_RIGHTDOWN : Nat := 6

/-- The SDL2 hat position SDL_HAT_LEFTUP. -/
def SDL_HAT_LEFTUP : Nat := 9

/-- The SDL2 hat position SDL_HAT_LEFTDOWN. -/
def SDL_HAT_LEFTDOWN : Nat := 12

/-- The SDL2 mouse button number SDL_BUTTON_LEFT. -/
def SDL_BUTTON_LEFT : Nat := 1

/-- The physical keys (SDL scancodes) that key_status reads, and the Q key. -/
inductive SDL_Scancode where
  | SDL_SCANCODE_ESCAPE | SDL_SCANCODE_LCTRL | SDL_SCANCODE_RCTRL | SDL_SCANCODE_RETURN
  | SDL_SCANCODE_PAUSE | SDL_SCANCODE_LSHIFT | SDL_SCANCODE_RSHIFT
  | SDL_SCANCODE_1 | SDL_SCANCODE_2 | SDL_SCANCODE_3 | SDL_SCANCODE_4 | SDL_SCANCODE_5
  | SDL_SCANCODE_6 | SDL_SCANCODE_7 | SDL_SCANCODE_8 | SDL_SCANCODE_9 | SDL_SCANCODE_0
  | SDL_SCANCODE_KP_1 | SDL_SCANCODE_KP_2 | SDL_SCANCODE_KP_3 | SDL_SCANCODE_KP_4
  | SDL_SCANCODE_KP_5 | SDL_SCANCODE_KP_6 | SDL_SCANCODE_KP_7 | SDL_SCANCODE_KP_8
  | SDL_SCANCODE_KP_9 | SDL_SCANCODE_KP_0
  | SDL_SCANCODE_F1 | SDL_SCANCODE_F2 | SDL_SCANCODE_F3 | SDL_SCANCODE_F4 | SDL_SCANCODE_F5
  | SDL_SCANCODE_F6 | SDL_SCANCODE_F7 | SDL_SCANCODE_F8 | SDL_SCANCODE_F9 | SDL_SCANCODE_F10
  | SDL_SCANCODE_F11 | SDL_SCANCODE_F12
  | SDL_SCANCODE_INSERT | SDL_SCANCODE_SPACE
  | SDL_SCANCODE_LEFT | SDL_SCANCODE_RIGHT | SDL_SCANCODE_UP | SDL_SCANCODE_DOWN
  | SDL_SCANCODE_A | SDL_SCANCODE_F | SDL_SCANCODE_V | SDL_SCANCODE_B | SDL_SCANCODE_P
  | SDL_SCANCODE_Q | SDL_SCANCODE_G | SDL_SCANCODE_S | SDL_SCANCODE_C | SDL_SCANCODE_E
  | SDL_SCANCODE_PAGEUP | SDL_SCANCODE_PAGEDOWN
deriving DecidableEq, Repr

/-- The logical keys: the indices of keys_down that key_status writes. -/
inductive Key where
  | K_ESCAPE | K_CTRL | K_RETURN | K_PAUSE | K_SHIFT
  | K_1 | K_2 | K_3 | K_4 | K_5 | K_6 | K_7 | K_8 | K_9 | K_0
  | K_F1 | K_F2 | K_F3 | K_F4 | K_F5 | K_F6 | K_F7 | K_F8 | K_F9 | K_F10 | K_F11 | K_F12
  | K_INSERT | K_SPACE | K_LEFT | K_RIGHT | K_UP | K_DOWN
  | K_A | K_F | K_V | K_B | K_P | K_Q | K_S | K_C | K_G | K_E | K_PAGEUP | K_PAGEDOWN
deriving DecidableEq, Repr

open SDL_Scancode Key

/-- The assignment keys_down[key] = v. -/
def assign (keys_down : Key → Nat) (key : Key) (v : Nat) : Key → Nat :=
  fun q => if q = key then v else keys_down q

/-- The function key_status: k is the keyboard snapshot, keys_down the
table before the call, and the result the table after it. The result of
is_playername_input() and the values of menu_section and SECTION_ORDER
come from modules that are not among the sources and are arguments. -/
def key_status (is_reverse_ctrl : Bool) (is_playername_input : Bool)
    (menu_section SECTION_ORDER : Int) (k : SDL_Scancode → Nat) (keys_down : Key → Nat) :
    Key → Nat :=
  let t := assign keys_down K_ESCAPE (k SDL_SCANCODE_ESCAPE)
  let t := assign t K_CTRL (k SDL_SCANCODE_LCTRL)
  let t := assign t K_CTRL (t K_CTRL ||| k SDL_SCANCODE_RCTRL)
  let t := assign t K_RETURN (k SDL_SCANCODE_RETURN)
  let t := assign t K_PAUSE (k SDL_SCANCODE_PAUSE)
  let t := assign t K_SHIFT (k SDL_SCANCODE_LSHIFT)
  let t := assign t K_SHIFT (t K_SHIFT ||| k SDL_SCANCODE_RSHIFT)
  let t := assign t K_1 (k SDL_SCANCODE_1 ||| k SDL_SCANCODE_KP_1)
  let t := assign t K_2 (k SDL_SCANCODE_2 ||| k SDL_SCANCODE_KP_2)
  let t := assign t K_3 (k SDL_SCANCODE_3 ||| k SDL_SCANCODE_KP_3)
  let t := assign t K_4 (k SDL_SCANCODE_4 ||| k SDL_SCANCODE_KP_4)
  let t := assign t K_5 (k SDL_SCANCODE_5 ||| k SDL_SCANCODE_KP_5)
  let t := assign t K_6 (k SDL_SCANCODE_6 ||| k SDL_SCANCODE_KP_6)
  let t := assign t K_7 (k SDL_SCANCODE_7 ||| k SDL_SCANCODE_KP_7)
  let t := assign t K_8 (k SDL_SCANCODE_8 ||| k SDL_SCANCODE_KP_8)
  let t := assign t K_9 (k SDL_SCANCODE_9 ||| k SDL_SCANCODE_KP_9)
  let t := assign t K_0 (k SDL_SCANCODE_0 ||| k SDL_SCANCODE_KP_0)
  let t := assign t K_F1 (k SDL_SCANCODE_F1)
  let t := assign t K_F2 (k SDL_SCANCODE_F2)
  let t := assign t K_F3 (k SDL_SCANCODE_F3)
  let t := assign t K_F4 (k SDL_SCANCODE_F4)
  let t := assign t K_F5 (k SDL_SCANCODE_F5)
  let t := assign t K_F6 (k SDL_SCANCODE_F6)
  let t := assign t K_F7 (k SDL_SCANCODE_F7)
  let t := assign t K_F8 (k SDL_SCANCODE_F8)
  let t := assign t K_F9 (k SDL_SCANCODE_F9)
  let t := assign t K_F10 (k SDL_SCANCODE_F10)
  let t := assign t K_F11 (k SDL_SCANCODE_F11)
  let t := assign t K_F12 (k SDL_SCANCODE_F12)
  let t := assign t K_INSERT (k SDL_SCANCODE_INSERT)
  let t := assign t K_SPACE (k SDL_SCANCODE_SPACE)
  let t :=
    if is_reverse_ctrl then
      let t := assign t K_LEFT (k SDL_SCANCODE_DOWN)
      let t := assign t K_RIGHT (k SDL_SCANCODE_UP)
      let t := assign t K_UP (k SDL_SCANCODE_LEFT)
      assign t K_DOWN (k SDL_SCANCODE_RIGHT)
    else
      let t := assign t K_LEFT (k SDL_SCANCODE_LEFT)
      let t := assign t K_RIGHT (k SDL_SCANCODE_RIGHT)
      let t := assign t K_UP (k SDL_SCANCODE_UP)
      assign t K_DOWN (k SDL_SCANCODE_DOWN)
  let t := assign t K_A (k SDL_SCANCODE_A)
  let t := assign t K_F (k SDL_SCANCODE_F)
  let t := assign t K_V (k SDL_SCANCODE_V)
  let t := assign t K_B (k SDL_SCANCODE_B)
  let t := assign t K_P (k SDL_SCANCODE_P)
  let t := assign t K_Q (k SDL_SCANCODE_G)
  let t := assign t K_S (k SDL_SCANCODE_S)
  let t := assign t K_RIGHT (t K_RIGHT ||| k SDL_SCANCODE_KP_6)
  let t := assign t K_LEFT (t K_LEFT ||| k SDL_SCANCODE_KP_4)
  let t := assign t K_UP (t K_UP ||| k SDL_SCANCODE_KP_8)
  let t := assign t K_DOWN (t K_DOWN ||| k SDL_SCANCODE_KP_5)
  let t := assign t K_CTRL (t K_CTRL ||| k SDL_SCANCODE_KP_2)
  let t := assign t K_SPACE (t K_SPACE ||| k SDL_SCANCODE_KP_0)
  let t :=
    if k SDL_SCANCODE_RETURN ≠ 0 ∧ is_playername_input = false ∧ menu_section ≠ SECTION_ORDER
    then assign t K_SPACE (t K_SPACE ||| k SDL_SCANCODE_RETURN)
    else t
  let t := assign t K_C (k SDL_SCANCODE_C)
  let t := assign t K_G (k SDL_SCANCODE_G)
  let t := assign t K_E (k SDL_SCANCODE_E)
  let t := assign t K_PAGEUP (k SDL_SCANCODE_PAGEUP)
  assign t K_PAGEDOWN (k SDL_SCANCODE_PAGEDOWN)

/-- A keyboard snapshot with exactly the listed physical keys down. -/
def snapshot (down : List SDL_Scancode) : SDL_Scancode → Nat :=
  fun c => if c ∈ down then 1 else 0

/-- The globals of the input side of display_sdl.c. The direction and
button flags take the values 0 and 1 only and are booleans. -/
structure Input where
  is_reverse_ctrl : Bool
  pause_will_disable : Bool
  player_pause : Bool
  key_code_down : Int
  keys_down : Key → Nat
  joy_top : Bool
  joy_right : Bool
  joy_down : Bool
  joy_left : Bool
  start_button_down : Bool
  fire_button_down : Bool
  option_button_down : Bool
  mouse_b : Int
  mouse_x : Int
  mouse_y : Int
  is_iconified : Bool

/-- What the input side reads from other modules: the joystick mapping of
power_conf, the pixel size of the screen, the result of
is_playername_input(), the menu section with the constant SECTION_ORDER,
and whether the build defines USE_SDLMIXER. -/
structure Context where
  joy_x_axis : Nat
  joy_y_axis : Nat
  joy_start : Nat
  joy_fire : Nat
  joy_option : Nat
  screen_pixel_size : Int
  is_playername_input : Bool
  menu_section : Int
  SECTION_ORDER : Int
  USE_SDLMIXER : Bool

/-- One event as SDL_PollEvent delivers it, with the fields that
display_handle_events reads. A key event carries the keyboard snapshot that
SDL_GetKeyboardState returns while it is handled. A mouse button release
carries the byte that event.window.event reads from the event union, since
its case falls through into the window case. The constructor
SDL_WINDOWEVENT_EXPOSED is an event whose type equals that constant, and
other is any type without a case. -/
inductive SDL_Event where
  | SDL_KEYDOWN (sym : Int) (keys : SDL_Scancode → Nat)
  | SDL_KEYUP (sym : Int) (keys : SDL_Scancode → Nat)
  | SDL_JOYHATMOTION (value : Nat)
  | SDL_JOYAXISMOTION (axis : Nat) (value : Int)
  | SDL_JOYBUTTONDOWN (button : Nat)
  | SDL_JOYBUTTONUP (button : Nat)
  | SDL_QUIT
  | SDL_MOUSEBUTTONDOWN (button : Nat) (x : Int) (y : Int)
  | SDL_MOUSEBUTTONUP (button : Nat) (window_event : Nat)
  | SDL_WINDOWEVENT (event : Nat)
  | SDL_WINDOWEVENT_EXPOSED
  | SDL_MOUSEMOTION
  | other (type : Nat)

/-- Modelled from the spec: toggle_pause is declared in mangadualist.h and
defined in a module that is not among the sources; it flips player_pause
and returns TRUE. -/
def toggle_pause (i : Input) : Bool × Input :=
  (true, { i with player_pause := !i.player_pause })

/-- The function display_toggle_pause. -/
def display_toggle_pause (i : Input) (gain : Nat) : Input :=
  if gain = 0 then
    if !i.player_pause then
      let r := toggle_pause i
      if r.1 then { r.2 with pause_will_disable := true } else r.2
    else i
  else
    let i1 := if i.player_pause && i.pause_will_disable then (toggle_pause i).2 else i
    { i1 with pause_will_disable := false }

/-- The globals that display_handle_events and main_loop work on. -/
structure Game where
  quit_game : Bool
  loops_counter : Nat
  input : Input
  display : Display

/-- The case SDL_JOYHATMOTION. -/
def handle_joyhat (i : Input) (value : Nat) : Input :=
  if value = SDL_HAT_RIGHTUP then
    { i with joy_top := true, joy_right := true, joy_down := false, joy_left := false }
  else if value = SDL_HAT_RIGHTDOWN then
    { i with joy_top := false, joy_right := true, joy_down := true, joy_left := false }
  else if value = SDL_HAT_LEFTDOWN then
    { i with joy_top := false, joy_right := false, joy_down := true, joy_left := true }
  else if value = SDL_HAT_LEFTUP then
    { i with joy_top := true, joy_right := false, joy_down := false, joy_left := true }
  else if value = SDL_HAT_UP then
    { i with joy_top := true, joy_right := false, joy_down := false, joy_left := false }
  else if value = SDL_HAT_RIGHT then
    { i with joy_top := false, joy_right := true, joy_down := false, joy_left := false }
  else if value = SDL_HAT_DOWN then
    { i with joy_top := false, joy_right := false, joy_down := true, joy_left := false }
  else if value = SDL_HAT_LEFT then
    { i with joy_top := false, joy_right := false, joy_down := false, joy_left := true }
  else if value = SDL_HAT_CENTERED then
    { i with joy_top := false, joy_right := false, joy_down := false, joy_left := false }
  else i

/-- The case SDL_JOYAXISMOTION, with its local deadzone of 4096. -/
def handle_joyaxis (c : Context) (i : Input) (axis : Nat) (value : Int) : Input :=
  let deadzone : Int := 4096
  if axis = c.joy_x_axis then
    if value < -deadzone then { i with joy_left := true, joy_right := false }
    else if value > deadzone then { i with joy_left := false, joy_right := true }
    else { i with joy_left := false, joy_right := false }
  else if axis = c.joy_y_axis then
    if value < -deadzone then { i with joy_down := false, joy_top := true }
    else if value > deadzone then { i with joy_down := true, joy_top := false }
    else { i with joy_down := false, joy_top := false }
  else i

/-- The cases SDL_JOYBUTTONDOWN (down = true) and SDL_JOYBUTTONUP. -/
def handle_joybutton (c : Context) (i : Input) (button : Nat) (down : Bool) : Input :=
  if button = c.joy_start then { i with start_button_down := down }
  else if button = c.joy_fire then { i with fire_button_down := down }
  else if button = c.joy_option then { i with option_button_down := down }
  else i

/-- The case SDL_WINDOWEVENT: the sub-event is tested against
SDL_WINDOWEVENT_ENTER and SDL_WINDOWEVENT_EXPOSED with the bitwise and, and
display_toggle_pause is called with SDL_WINDOWEVENT_FOCUS_GAINED. -/
def handle_windowevent (i : Input) (event : Nat) : Input :=
  let i1 :=
    if event &&& SDL_WINDOWEVENT_ENTER ≠ 0 then
      display_toggle_pause i SDL_WINDOWEVENT_FOCUS_GAINED
    else i
  if event &&& SDL_WINDOWEVENT_EXPOSED ≠ 0 then
    display_toggle_pause { i1 with is_iconified := decide (event ≠ 0) }
      SDL_WINDOWEVENT_FOCUS_GAINED
  else i1

/-- The body of the switch of display_handle_events for one event. The
calls into the text input module (sprites_string_key_down and the like),
the log, and the fill of public_surface write nothing modelled here. The
divisions truncate as in C. -/
def handle_event (c : Context) (g : Game) : SDL_Event → Game
  | SDL_Event.SDL_KEYDOWN sym keys =>
    { g with input :=
        { g.input with
          keys_down := key_status g.input.is_reverse_ctrl c.is_playername_input
            c.menu_section c.SECTION_ORDER keys g.input.keys_down,
          key_code_down := to_Uint32 sym } }
  | SDL_Event.SDL_KEYUP sym keys =>
    { g with input :=
        { g.input with
          key_code_down :=
            if g.input.key_code_down = to_Uint32 sym then 0 else g.input.key_code_down,
          keys_down := key_status g.input.is_reverse_ctrl c.is_playername_input
            c.menu_section c.SECTION_ORDER keys g.input.keys_down } }
  | SDL_Event.SDL_JOYHATMOTION value => { g with input := handle_joyhat g.input value }
  | SDL_Event.SDL_JOYAXISMOTION axis value =>
    { g with input := handle_joyaxis c g.input axis value }
  | SDL_Event.SDL_JOYBUTTONDOWN button =>
    { g with input := handle_joybutton c g.input button true }
  | SDL_Event.SDL_JOYBUTTONUP button =>
    { g with input := handle_joybutton c g.input button false }
  | SDL_Event.SDL_QUIT => { g with quit_game := true }
  | SDL_Event.SDL_MOUSEBUTTONDOWN button x y =>
    if button = SDL_BUTTON_LEFT then
      { g with input :=
          { g.input with mouse_b := 1, mouse_x := Int.tdiv x c.screen_pixel_size,
                         mouse_y := Int.tdiv y c.screen_pixel_size } }
    else g
  | SDL_Event.SDL_MOUSEBUTTONUP button window_event =>
    let i1 := if button = SDL_BUTTON_LEFT then { g.input with mouse_b := 0 } else g.input
    { g with input := handle_windowevent i1 window_event }
  | SDL_Event.SDL_WINDOWEVENT event => { g with input := handle_windowevent g.input event }
  | SDL_Event.SDL_WINDOWEVENT_EXPOSED => { g with display := { g.display with update_all := true } }
  | SDL_Event.SDL_MOUSEMOTION => g
  | SDL_Event.other _ => g

/-- The function display_handle_events: the pending events are handled one
by one, oldest first, until SDL_PollEvent has none left. -/
def display_handle_events (c : Context) (g : Game) (events : List SDL_Event) : Game :=
  events.foldl (handle_event c) g

/-- The statics of the surface side together: the registry, the pixel
pointer movie_offscreen (0 is NULL) and the globals of display. -/
structure Video where
  registry : Registry
  movie_offscreen : Nat
  display : Display

/-- The function destroy_movie_offscreen. The result none is the read
through the NULL pointer of free_surface. -/
def destroy_movie_offscreen (v : Video) : Option Video :=
  if v.movie_offscreen ≠ 0 then
    match free_surface v.registry v.display.movie_surface with
    | none => none
    | some r =>
      some { registry := r, movie_offscreen := 0,
             display := { v.display with movie_surface := 0 } }
  else some { v with display := { v.display with movie_surface := 0 } }

/-! ## Main loop -/

/-- The constant GAME_FRAME_RATE of the SDL build, in milliseconds. -/
def GAME_FRAME_RATE : Int := 14

/-- The constant MOVIE_FRAME_RATE of the SDL build, in milliseconds. -/
def MOVIE_FRAME_RATE : Int := 35

/-- The first argument of wait_next_frame: RATE - frame_diff + pause_delay
with RATE a Uint32 and the two others Sint32, so both are converted to
Uint32, the sum is taken modulo 2^32, and the result is converted to the
Sint32 parameter. -/
def sleep_budget (rate frame_diff pause_delay : Int) : Int :=
  to_Sint32
    (to_Uint32 (to_Uint32 (to_Uint32 rate - to_Uint32 frame_diff) + to_Uint32 pause_delay))

/-- The calls that main_loop makes. -/
inductive Call where
  | get_time_difference
  | wait_next_frame (delay : Int) (max : Int)
  | update_frame
  | display_handle_events
  | display_update_window
  | sound_handle
deriving DecidableEq, Repr

/-- What the collaborators of main_loop answer during one iteration: the
option nosync of power_conf, the Sint32 values that get_time_difference
and wait_next_frame return, whether
movie_playing_switch differs from MOVIE_NOT_PLAYED, the result of
update_frame, and the events pending when display_handle_events runs. The
writes of update_frame and sound_handle to the modelled globals are not
followed. -/
structure Tick where
  nosync : Bool
  frame_diff : Int
  movie_playing : Bool
  wait_result : Int
  update_frame : Bool
  events : List SDL_Event

/-- The state of main_loop: the globals, the locals pause_delay and
frame_diff, and the log of the calls made so far, oldest first. -/
structure Loop where
  game : Game
  pause_delay : Int
  frame_diff : Int
  calls : List Call

/-- Entry of main_loop: both locals are 0. -/
def main_loop_entry (g : Game) : Loop :=
  { game := g, pause_delay := 0, frame_diff := 0, calls := [] }

/-- The frame pacing at the head of the loop body. -/
def main_loop_sync (t : Tick) (s : Loop) : Loop :=
  if !t.nosync then
    let rate := if t.movie_playing then MOVIE_FRAME_RATE else GAME_FRAME_RATE
    { s with
      frame_diff := t.frame_diff,
      pause_delay := t.wait_result,
      calls := s.calls ++
        [Call.get_time_difference,
         Call.wait_next_frame (sleep_budget rate t.frame_diff s.pause_delay) rate] }
  else s

/-- The body of the do-while loop of main_loop. -/
def main_loop_body (c : Context) (t : Tick) (s : Loop) : Loop :=
  let s0 := { s with game := { s.game with loops_counter := uint32_inc s.game.loops_counter } }
  let s1 := main_loop_sync t s0
  let g2 := if !t.update_frame then { s1.game with quit_game := true } else s1.game
  let g3 := display_handle_events c g2 t.events
  let g4 := { g3 with display := display_update_window g3.display }
  { s1 with
    game := g4,
    calls := s1.calls ++
      [Call.update_frame, Call.display_handle_events, Call.display_update_window] ++
      (if c.USE_SDLMIXER then [Call.sound_handle] else []) }

/-- The result of running main_loop against a list of ticks: the state,
the number of iterations made, and whether the loop was left through its
condition (quit_game TRUE) rather than for lack of ticks. -/
structure LoopResult where
  state : Loop
  iterations : Nat
  finished : Bool

/-- The do-while loop of main_loop: the body runs, then quit_game is
tested. -/
def main_loop_run (c : Context) : List Tick → Loop → LoopResult
  | [], s => { state := s, iterations := 0, finished := false }
  | t :: ts, s =>
    let s1 := main_loop_body c t s
    if s1.game.quit_game then { state := s1, iterations := 1, finished := true }
    else
      let r := main_loop_run c ts s1
      { r with iterations := r.iterations + 1 }

/-- The function main_loop. -/
def main_loop (c : Context) (ticks : List Tick) (g : Game) : LoopResult :=
  main_loop_run c ticks (main_loop_entry g)

/-- The calls that every iteration is to make, in order. -/
def core_calls : List Call :=
  [Call.update_frame, Call.display_handle_events, Call.display_update_window]

/-- The call is one of the three of core_calls. -/
def is_core_call (x : Call) : Bool :=
  decide (x ∈ core_calls)

/-- The three calls of core_calls, repeated n times. -/
def core_trace : Nat → List Call
  | 0 => []
  | n + 1 => core_calls ++ core_trace n

/-- The calls that a run of main_loop added to the log. -/
def issued_calls (before after : Loop) : List Call :=
  after.calls.drop before.calls.length

/-- The event is SDL_QUIT. -/
def is_quit : SDL_Event → Bool
  | SDL_Event.SDL_QUIT => true
  | _ => false

/-- The blit of display_movie: the whole movie surface onto the
presentation buffer. -/
def movie_blit (d : Display) : Blit :=
  { src := Surface.movie_surface,
    srcrect := get_rect 0 0 d.display_width d.display_height,
    dst := Surface.public_surface,
    dstrect := get_rect 0 0 d.display_width d.display_height }

/-! ## Pause and focus -/

/-- The steps that change the pause state: a focus loss, which calls
display_toggle_pause(0); a focus gain, which calls display_toggle_pause
with the non-zero value n + 1; and a pause toggle by the user, a direct
call of toggle_pause. -/
inductive PauseStep where
  | focus_loss
  | focus_gain (n : Nat)
  | user_toggle
deriving DecidableEq, Repr

/-- The input globals together with two observers: whether the pause in
force was entered by a focus-loss step, and whether the window has the
focus. -/
structure PauseTrack where
  input : Input
  entered_by_focus_loss : Bool
  focused : Bool

/-- One step, with the observers kept up to date: the origin of the pause
is recorded when player_pause goes from FALSE to TRUE. -/
def pause_step (t : PauseTrack) : PauseStep → PauseTrack
  | PauseStep.focus_loss =>
    let i := display_toggle_pause t.input 0
    { input := i,
      entered_by_focus_loss :=
        if !t.input.player_pause && i.player_pause then true else t.entered_by_focus_loss,
      focused := false }
  | PauseStep.focus_gain n =>
    { t with input := display_toggle_pause t.input (n + 1), focused := true }
  | PauseStep.user_toggle =>
    let i := (toggle_pause t.input).2
    { t with
      input := i,
      entered_by_focus_loss :=
        if !t.input.player_pause && i.player_pause then false else t.entered_by_focus_loss }

/-- A run of steps from a state. -/
def pause_run (t : PauseTrack) (steps : List PauseStep) : PauseTrack :=
  steps.foldl pause_step t

/-- The user toggles the pause only while the window has the focus. -/
def toggles_while_focused : Bool → List PauseStep → Bool
  | _, [] => true
  | _, PauseStep.focus_loss :: rest => toggles_while_focused false rest
  | _, PauseStep.focus_gain _ :: rest => toggles_while_focused true rest
  | focused, PauseStep.user_toggle :: rest => focused && toggles_while_focused focused rest

/-- The latch is set only while the game is paused by a focus loss and the
window is still without focus. -/
def latch_invariant (t : PauseTrack) : Prop :=
  t.input.pause_will_disable = true →
    t.input.player_pause = true ∧ t.entered_by_focus_loss = true ∧ t.focused = false

/-- An input state used in the examples: nothing pressed, not paused. -/
def sample_input : Input :=
  { is_reverse_ctrl := false, pause_will_disable := false, player_pause := false,
    key_code_down := 0, keys_down := fun _ => 0, joy_top := false, joy_right := false,
    joy_down := false, joy_left := false, start_button_down := false,
    fire_button_down := false, option_button_down := false, mouse_b := 0, mouse_x := 0,
    mouse_y := 0, is_iconified := false }

/-- A context used in the examples: X axis 0, Y axis 1, buttons 0, 1, 2. -/
def sample_context : Context :=
  { joy_x_axis := 0, joy_y_axis := 1, joy_start := 0, joy_fire := 1, joy_option := 2,
    screen_pixel_size := 1, is_playername_input := false, menu_section := 0,
    SECTION_ORDER := 5, USE_SDLMIXER := false }

/-- A game state used in the examples. -/
def sample_game : Game :=
  { quit_game := false, loops_counter := 0, input := sample_input,
    display := sample_display true (-1) false false false false false }

/-- A tick used in the examples: paced, no movie playing. -/
def sample_tick (frame_diff wait_result : Int) (update_frame : Bool)
    (events : List SDL_Event) : Tick :=
  { nosync := false, frame_diff := frame_diff, movie_playing := false,
    wait_result := wait_result, update_frame := update_frame, events := events }

/-- The start of the pause runs: an input state with its observers. -/
def pause_start (i : Input) : PauseTrack :=
  { input := i, entered_by_focus_loss := false, focused := true }

/-- A surface state used in the examples: a movie surface is live in slot
0 of the registry and movie_offscreen points at its pixels. -/
def sample_video : Video :=
  { registry := { surfaces_list := 9 :: List.replicate 99 0, surfaces_counter := 1 },
    movie_offscreen := 77,
    display := { sample_display false 2 false false true false true with movie_surface := 9 } }

/-! ## Palettes -/

/-- The globals of create_palettes. The game palette palette_24 is 256 RGB
triples, one byte each. The three tables are NULL (none) or the memory
they point to: the bytes of 256 SDL_Color records (r, g, b, a) for
sdl_color_palette, the 256 entries of pal16, and the 1024 bytes of
pal32. -/
structure Palettes where
  bytes_per_pixel : Nat
  bits_per_pixel : Nat
  palette_24 : List Nat
  sdl_color_palette : Option (List Nat)
  pal16 : Option (List Nat)
  pal32 : Option (List Nat)
deriving DecidableEq, Repr

/-- What create_palettes takes from outside display_sdl.c: the byte order
of the build (SDL_BYTEORDER == SDL_BIG_ENDIAN), the allocator
memory_allocation, which returns NULL (none) or a block with some content,
and the two 16-bit conversions of the graphics wrapper, which map the
palette and the old table to the new table. -/
structure PaletteEnv where
  big_endian : Bool
  memory_allocation : Nat → Option (List Nat)
  convert_palette_24_to_15 : List Nat → List Nat → List Nat
  convert_palette_24_to_16 : List Nat → List Nat → List Nat

/-- A table pointer after the test for NULL: the table itself, or a fresh
allocation of the given size. -/
def table_or_allocate (e : PaletteEnv) (table : Option (List Nat)) (size : Nat) :
    Option (List Nat) :=
  match table with
  | some m => some m
  | none => e.memory_allocation size

/-- Loop of the 8-bit branch: r, g and b of entry i are copied from the
palette; the fourth byte of the record is not written. -/
def sdl_color_loop (src : List Nat) : Nat → Nat → List Nat → List Nat
  | 0, _, dest => dest
  | n + 1, i, dest =>
    sdl_color_loop src n (i + 1)
      (((dest.set (4 * i) (src.getD (3 * i) 0)).set (4 * i + 1) (src.getD (3 * i + 1) 0)).set
        (4 * i + 2) (src.getD (3 * i + 2) 0))

/-- Body of the loop of the 24/32-bit branch for entry i, in the order of
the four assignments of each byte order. -/
def pal32_store (big_endian : Bool) (src : List Nat) (i : Nat) (dest : List Nat) : List Nat :=
  if big_endian then
    (((dest.set (4 * i + 3) (src.getD (3 * i + 2) 0)).set (4 * i + 2)
      (src.getD (3 * i + 1) 0)).set (4 * i + 1) (src.getD (3 * i) 0)).set (4 * i) 0
  else
    (((dest.set (4 * i + 2) (src.getD (3 * i + 2) 0)).set (4 * i + 1)
      (src.getD (3 * i + 1) 0)).set (4 * i) (src.getD (3 * i) 0)).set (4 * i + 3) 0

/-- Loop of the 24/32-bit branch: for (i = 0; i < 256; i++), with dest
advancing by 4 bytes and src by 3. -/
def pal32_loop (big_endian : Bool) (src : List Nat) : Nat → Nat → List Nat → List Nat
  | 0, _, dest => dest
  | n + 1, i, dest => pal32_loop big_endian src n (i + 1) (pal32_store big_endian src i dest)

/-- The function create_palettes: the result is the returned boolean and
the globals afterwards. The palette handed to SDL in the 8-bit branch is a
backend effect and is not modelled. -/
def create_palettes (e : PaletteEnv) (p : Palettes) : Bool × Palettes :=
  if p.bytes_per_pixel = 1 then
    match table_or_allocate e p.sdl_color_palette (4 * 256) with
    | none => (false, p)
    | some m =>
      (true, { p with sdl_color_palette := some (sdl_color_loop p.palette_24 256 0 m) })
  else if p.bytes_per_pixel = 2 then
    match table_or_allocate e p.pal16 (256 * 2) with
    | none => (false, p)
    | some m =>
      let table :=
        if p.bits_per_pixel = 15 then e.convert_palette_24_to_15 p.palette_24 m
        else e.convert_palette_24_to_16 p.palette_24 m
      (true, { p with pal16 := some table })
  else if p.bytes_per_pixel > 2 then
    match table_or_allocate e p.pal32 (256 * 4) with
    | none => (false, p)
    | some m =>
      (true, { p with pal32 := some (pal32_loop e.big_endian p.palette_24 256 0 m) })
  else (true, p)

/-- The function get_rgb_mask: the red, green and blue masks for the
depth bits_per_pixel. -/
def get_rgb_mask (big_endian : Bool) (bits_per_pixel : Nat) : Nat × Nat × Nat :=
  if bits_per_pixel = 15 then (0x7c00, 0x03e0, 0x001f)
  else if bits_per_pixel = 16 then (0xf800, 0x03e0, 0x001f)
  else if big_endian then (0x00ff0000, 0x0000ff00, 0x000000ff)
  else (0x000000ff, 0x0000ff00, 0x00ff0000)

/-- The Uint32 entry i of a table of bytes, read in the byte order of the
machine. -/
def read_Uint32 (big_endian : Bool) (mem : List Nat) (i : Nat) : Nat :=
  if big_endian then
    mem.getD (4 * i) 0 * 16777216 + mem.getD (4 * i + 1) 0 * 65536 +
      mem.getD (4 * i + 2) 0 * 256 + mem.getD (4 * i + 3) 0
  else
    mem.getD (4 * i) 0 + mem.getD (4 * i + 1) 0 * 256 + mem.getD (4 * i + 2) 0 * 65536 +
      mem.getD (4 * i + 3) 0 * 16777216

/-- Position of the lowest set bit of a mask, searched over the given
number of bits. -/
def mask_shift_from : Nat → Nat → Nat
  | 0, _ => 0
  | n + 1, mask => if mask % 2 = 1 then 0 else 1 + mask_shift_from n (mask / 2)

/-- Position of the lowest set bit of a 32-bit channel mask. -/
def mask_shift (mask : Nat) : Nat := mask_shift_from 32 mask

/-- The channel of a pixel value under a mask: the masked bits, shifted
down to bit 0. -/
def channel (v mask : Nat) : Nat := (v &&& mask) >>> mask_shift mask

/-- The bits of a 32-bit pixel value outside the three channel masks. -/
def outside_masks (v : Nat) (masks : Nat × Nat × Nat) : Nat :=
  v &&& (0xffffffff ^^^ (masks.1 ||| masks.2.1 ||| masks.2.2))

/-- The byte that the 24/32-bit loop leaves at offset t of the table: entry
t / 4 holds red, green, blue and a zero byte, the zero byte first on a
big-endian build and last on a little-endian one. -/
def pal32_byte (big_endian : Bool) (src : List Nat) (t : Nat) : Nat :=
  if big_endian then
    if t % 4 = 0 then 0 else src.getD (3 * (t / 4) + (t % 4 - 1)) 0
  else
    if t % 4 = 3 then 0 else src.getD (3 * (t / 4) + t % 4) 0

/-- A palette used in the examples: byte j is j modulo 256. -/
@[irreducible]
def sample_palette_24 : List Nat :=
  (List.range 768).map (fun j => j % 256)

/-- A palette state used in the examples: 32-bit depth, the palette
sample_palette_24, and pal32 not yet allocated. -/
def sample_palettes : Palettes :=
  { bytes_per_pixel := 4, bits_per_pixel := 32, palette_24 := sample_palette_24,
    sdl_color_palette := none, pal16 := none, pal32 := none }

/-- An environment used in the examples: little-endian, the allocator
returns blocks filled with the byte 205, and the 16-bit conversions leave
the table as it is. -/
def sample_palette_env : PaletteEnv :=
  { big_endian := false, memory_allocation := fun size => some (List.replicate size 205),
    convert_palette_24_to_15 := fun _ m => m, convert_palette_24_to_16 := fun _ m => m }

/-- A state used in the examples: an incremental composition with one
pending option square whose coordinates are outside the range of
Sint16. -/
def wrapped_display : Display :=
  { sample_display false 0 false false false false false with
    options_refresh := [{ coord_x := 40000, coord_y := -40000 }] }

/-- Number of non-null entries of a list of slots. -/
def live_in (l : List SurfacePtr) : Nat :=
  (l.filter (fun p => decide (p ≠ 0))).length

/-- The invariant of the registry: the table has its 100 slots, the counter
equals the number of non-null slots, that number is at most 100, and the
non-null entries are pairwise distinct. -/
def registry_invariant (s : Registry) : Prop :=
  s.surfaces_list.length = MAX_OF_SURFACES ∧ s.surfaces_counter = live_count s ∧
    live_count s ≤ MAX_OF_SURFACES ∧ distinct_handles s

/-- States reachable from the registry that display_init sets up, by calls
of create_surface (the backend either fails, returning NULL, or returns a
pointer that no slot holds), of free_surface on a live handle, and of
free_surfaces. -/
inductive Reachable : Registry → Prop
  | init : Reachable (display_init startup)
  | create (s : Registry) (backend : SurfacePtr) :
      Reachable s → (backend = 0 ∨ backend ∉ s.surfaces_list) →
      Reachable (create_surface s backend).2
  | free (s s1 : Registry) (h : SurfacePtr) :
      Reachable s → h ≠ 0 → h ∈ s.surfaces_list → free_surface s h = some s1 →
      Reachable s1
  | free_all (s : Registry) : Reachable s → Reachable (free_surfaces s)

/-! ### Lemmas on the loops of the registry -/

theorem uint32_inc_dec (c : Nat) (hc : c < UINT32_SIZE) : uint32_inc (uint32_dec c) = c := by
  unfold uint32_inc uint32_dec UINT32_SIZE at *
  omega

theorem uint32_dec_pos (c : Nat) (h0 : 0 < c) (hc : c < UINT32_SIZE) :
    uint32_dec c = c - 1 := by
  unfold uint32_dec UINT32_SIZE at *
  omega

theorem uint32_inc_small (c : Nat) (hc : c + 1 < UINT32_SIZE) : uint32_inc c = c + 1 := by
  unfold uint32_inc UINT32_SIZE at *
  omega

theorem create_surface_scan_neg_iff (l : List SurfacePtr) :
    ∀ n i, create_surface_scan l n i < 0 ↔ ∀ k, i ≤ k → k < i + n → l.getD k 0 ≠ 0 := by
  intro n
  induction n with
  | zero =>
    intro i
    simp only [create_surface_scan]
    constructor
    · intro _ k h1 h2; omega
    · intro _; omega
  | succ n ih =>
    intro i
    simp only [create_surface_scan]
    by_cases h : l.getD i 0 = 0
    · rw [if_pos h]
      constructor
      · intro hneg; omega
      · intro hall; exact absurd h (hall i (Nat.le_refl i) (by omega))
    · rw [if_neg h, ih (i + 1)]
      constructor
      · intro hall k h1 h2
        by_cases hk : k = i
        · subst hk; exact h
        · exact hall k (by omega) (by omega)
      · intro hall k h1 h2
        exact hall k (by omega) (by omega)

theorem create_surface_scan_first (l : List SurfacePtr) :
    ∀ n i j, i ≤ j → j < i + n → l.getD j 0 = 0 →
      (∀ k, i ≤ k → k < j → l.getD k 0 ≠ 0) → create_surface_scan l n i = (j : Int) := by
  intro n
  induction n with
  | zero => intro i j h1 h2; omega
  | succ n ih =>
    intro i j h1 h2 hj hbefore
    simp only [create_surface_scan]
    by_cases h : l.getD i 0 = 0
    · rw [if_pos h]
      by_cases hij : i = j
      · subst hij; rfl
      · exact absurd h (hbefore i (Nat.le_refl i) (by omega))
    · rw [if_neg h]
      have hij : i ≠ j := by
        intro e; subst e; exact h hj
      exact ih (i + 1) j (by omega) (by omega) hj
        (fun k hk1 hk2 => hbefore k (by omega) hk2)

theorem free_surface_loop_absent (h : SurfacePtr) (s : Registry) :
    ∀ n i, (∀ k, i ≤ k → k < i + n → s.surfaces_list.getD k 0 ≠ h) →
      free_surface_loop h s n i = some s := by
  intro n
  induction n with
  | zero => intro i _; rfl
  | succ n ih =>
    intro i hall
    simp only [free_surface_loop]
    rw [if_neg (hall i (Nat.le_refl i) (by omega))]
    exact ih (i + 1) (fun k h1 h2 => hall k (by omega) (by omega))

theorem free_surface_loop_found (h : SurfacePtr) (s : Registry) (hh : h ≠ 0) :
    ∀ n i j, i ≤ j → j < i + n → s.surfaces_list.getD j 0 = h →
      (∀ k, i ≤ k → k < j → s.surfaces_list.getD k 0 ≠ h) →
      free_surface_loop h s n i = some
        { surfaces_list := s.surfaces_list.set j 0,
          surfaces_counter := uint32_dec s.surfaces_counter } := by
  intro n
  induction n with
  | zero => intro i j h1 h2; omega
  | succ n ih =>
    intro i j h1 h2 hj hbefore
    simp only [free_surface_loop]
    by_cases hi : s.surfaces_list.getD i 0 = h
    · rw [if_pos hi, if_neg hh]
      by_cases hij : i = j
      · subst hij; rfl
      · exact absurd hi (hbefore i (Nat.le_refl i) (by omega))
    · rw [if_neg hi]
      have hij : i ≠ j := by
        intro e; subst e; exact hi hj
      exact ih (i + 1) j (by omega) (by omega) hj
        (fun k hk1 hk2 => hbefore k (by omega) hk2)

theorem live_in_cons_null (l : List SurfacePtr) : live_in (0 :: l) = live_in l := by
  simp [live_in]

theorem live_in_cons_live (p : SurfacePtr) (l : List SurfacePtr) (hp : p ≠ 0) :
    live_in (p :: l) = live_in l + 1 := by
  simp [live_in, hp]

theorem live_in_le_length (l : List SurfacePtr) : live_in l ≤ l.length := by
  unfold live_in
  exact List.length_filter_le _ l

theorem live_in_replicate_null (n : Nat) : live_in (List.replicate n 0) = 0 := by
  induction n with
  | zero => rfl
  | succ n ih => rw [List.replicate_succ, live_in_cons_null, ih]

theorem getD_append_cons (pre rest : List SurfacePtr) (x : SurfacePtr) :
    (pre ++ x :: rest).getD pre.length 0 = x := by
  induction pre with
  | nil => rfl
  | cons a pre ih => simpa using ih

theorem set_append_cons (pre rest : List SurfacePtr) (x y : SurfacePtr) :
    (pre ++ x :: rest).set pre.length y = pre ++ y :: rest := by
  induction pre with
  | nil => rfl
  | cons a pre ih => simp

theorem free_surfaces_loop_spec :
    ∀ (rest pre : List SurfacePtr) (c : Nat),
      free_surfaces_loop { surfaces_list := pre ++ rest, surfaces_counter := c }
        rest.length pre.length =
      { surfaces_list := pre ++ List.replicate rest.length 0,
        surfaces_counter := uint32_dec^[live_in rest] c } := by
  intro rest
  induction rest with
  | nil => intro pre c; simp [free_surfaces_loop, live_in]
  | cons x rest ih =>
    intro pre c
    have hlen : (pre ++ [(0 : SurfacePtr)]).length = pre.length + 1 := by simp
    have happ : ∀ y : SurfacePtr, pre ++ y :: rest = (pre ++ [y]) ++ rest := by
      intro y; simp
    rw [List.length_cons, free_surfaces_loop, getD_append_cons, set_append_cons]
    by_cases hx : x = 0
    · subst hx
      rw [if_pos rfl, live_in_cons_null, happ 0, ← hlen, ih (pre ++ [0]) c,
        List.replicate_succ, List.append_assoc]
      rfl
    · rw [if_neg hx, live_in_cons_live x rest hx, happ 0, ← hlen,
        ih (pre ++ [0]) (uint32_dec c), List.replicate_succ, List.append_assoc,
        Function.iterate_succ_apply]
      rfl

theorem uint32_dec_iterate (k : Nat) : ∀ c, k ≤ c → c < UINT32_SIZE → uint32_dec^[k] c = c - k := by
  induction k with
  | zero => intro c _ _; rfl
  | succ k ih =>
    intro c hk hc
    rw [Function.iterate_succ_apply, uint32_dec_pos c (by omega) hc,
      ih (c - 1) (by omega) (by omega)]
    omega

theorem free_surfaces_eq (s : Registry) (hlen : s.surfaces_list.length = MAX_OF_SURFACES) :
    free_surfaces s =
      { surfaces_list := List.replicate MAX_OF_SURFACES 0,
        surfaces_counter := uint32_dec^[live_count s] s.surfaces_counter } := by
  have h := free_surfaces_loop_spec s.surfaces_list [] s.surfaces_counter
  simp only [List.nil_append, List.length_nil] at h
  unfold free_surfaces
  rw [← hlen]
  exact h

theorem getD_of_lt (l : List SurfacePtr) (k : Nat) (hk : k < l.length) :
    l.getD k 0 = l[k] := by
  simp [List.getD_eq_getElem?_getD, List.getElem?_eq_getElem hk]

theorem full_iff_getD (l : List SurfacePtr) :
    (∀ p ∈ l, p ≠ 0) ↔ ∀ k, 0 ≤ k → k < 0 + l.length → l.getD k 0 ≠ 0 := by
  constructor
  · intro hall k _ hk
    have hk2 : k < l.length := by omega
    rw [getD_of_lt l k hk2]
    exact hall _ (List.getElem_mem hk2)
  · intro hall p hp
    obtain ⟨k, hk, rfl⟩ := List.getElem_of_mem hp
    have := hall k (Nat.zero_le k) (by omega)
    rwa [getD_of_lt l k hk] at this

theorem absent_iff_getD (l : List SurfacePtr) (h : SurfacePtr) :
    h ∉ l ↔ ∀ k, 0 ≤ k → k < 0 + l.length → l.getD k 0 ≠ h := by
  constructor
  · intro hall k _ hk
    have hk2 : k < l.length := by omega
    rw [getD_of_lt l k hk2]
    intro e
    exact hall (e ▸ List.getElem_mem hk2)
  · intro hall hp
    obtain ⟨k, hk, e⟩ := List.getElem_of_mem hp
    have := hall k (Nat.zero_le k) (by omega)
    rw [getD_of_lt l k hk] at this
    exact this e

theorem split_at_slot (l : List SurfacePtr) (j : Nat) (hj : j < l.length) :
    ∃ pre rest, l = pre ++ l.getD j 0 :: rest ∧ pre.length = j := by
  refine ⟨l.take j, l.drop (j + 1), ?_, ?_⟩
  · rw [getD_of_lt l j hj, ← List.drop_eq_getElem_cons hj, List.take_append_drop]
  · rw [List.length_take]; omega

theorem getD_append_left (a b : List SurfacePtr) (k : Nat) (hk : k < a.length) :
    (a ++ b).getD k 0 = a.getD k 0 := by
  simp [List.getD_eq_getElem?_getD, List.getElem?_append_left hk]

theorem create_surface_full (s : Registry) (backend : SurfacePtr)
    (hlen : s.surfaces_list.length = MAX_OF_SURFACES) (hfull : is_full s) :
    create_surface s backend = (0, s) := by
  have hneg : create_surface_scan s.surfaces_list MAX_OF_SURFACES 0 < 0 := by
    rw [create_surface_scan_neg_iff, ← hlen]
    exact (full_iff_getD s.surfaces_list).mp hfull
  unfold create_surface
  simp only [hneg, if_true]

theorem create_surface_first_free (s : Registry) (backend : SurfacePtr) (j : Nat)
    (hj : j < MAX_OF_SURFACES) (h0 : s.surfaces_list.getD j 0 = 0)
    (hbefore : ∀ k, k < j → s.surfaces_list.getD k 0 ≠ 0) (hb : backend ≠ 0) :
    create_surface s backend =
      (backend,
        { surfaces_list := s.surfaces_list.set j backend,
          surfaces_counter := uint32_inc s.surfaces_counter }) := by
  have hscan : create_surface_scan s.surfaces_list MAX_OF_SURFACES 0 = (j : Int) :=
    create_surface_scan_first s.surfaces_list MAX_OF_SURFACES 0 j (Nat.zero_le j)
      (by omega) h0 (fun k _ hk => hbefore k hk)
  unfold create_surface
  simp only [hscan]
  rw [if_neg (by omega), if_neg hb, Int.toNat_ofNat]

theorem create_surfaces_fill :
    ∀ (ps a : List SurfacePtr) (m c : Nat), (∀ x ∈ a, x ≠ 0) → (∀ p ∈ ps, p ≠ 0) →
      a.length + ps.length + m = MAX_OF_SURFACES →
      create_surfaces
          { surfaces_list := a ++ List.replicate (ps.length + m) 0, surfaces_counter := c } ps =
        (ps, { surfaces_list := a ++ ps ++ List.replicate m 0,
               surfaces_counter := uint32_inc^[ps.length] c }) := by
  intro ps
  induction ps with
  | nil =>
    intro a m c _ _ _
    simp [create_surfaces]
  | cons p ps ih =>
    intro a m c ha hps hlen
    have hp : p ≠ 0 := hps p (List.mem_cons_self p ps)
    have hrep : List.replicate ((p :: ps).length + m) (0 : SurfacePtr) =
        0 :: List.replicate (ps.length + m) 0 := by
      rw [List.length_cons, Nat.add_right_comm, List.replicate_succ]
    have hstep := create_surface_first_free
      { surfaces_list := a ++ 0 :: List.replicate (ps.length + m) 0, surfaces_counter := c }
      p a.length (by simp only [List.length_cons] at hlen; omega)
      (getD_append_cons a _ 0)
      (fun k hk => by
        show (a ++ 0 :: List.replicate (ps.length + m) 0).getD k 0 ≠ 0
        rw [getD_append_left a _ k hk, getD_of_lt a k hk]
        exact ha _ (List.getElem_mem hk))
      hp
    simp only [set_append_cons] at hstep
    have happ : a ++ p :: List.replicate (ps.length + m) 0 =
        (a ++ [p]) ++ List.replicate (ps.length + m) 0 := by simp
    have hih := ih (a ++ [p]) m (uint32_inc c)
      (fun x hx => by
        rcases List.mem_append.mp hx with h1 | h1
        · exact ha x h1
        · rw [List.mem_singleton.mp h1]; exact hp)
      (fun q hq => hps q (List.mem_cons_of_mem p hq))
      (by simp only [List.length_cons, List.length_append, List.length_nil] at hlen ⊢; omega)
    rw [hrep]
    simp only [create_surfaces, hstep]
    rw [happ, hih]
    simp [Function.iterate_succ_apply]

theorem display_init_startup :
    display_init startup =
      { surfaces_list := List.replicate MAX_OF_SURFACES 0, surfaces_counter := 0 } := by
  decide

/-- C1: when the backend allocation succeeds, create_surface returns NULL
exactly when all 100 slots of surfaces_list are occupied; and from the
registry that display_init sets up, 100 consecutive create_surface calls
return the 100 non-null backend pointers, after which one more call
returns NULL and leaves the slot table and surfaces_counter as they were. -/
theorem create_surface_capacity (s : Registry) (backend : SurfacePtr)
    (ps : List SurfacePtr) (q : SurfacePtr)
    (hlen : s.surfaces_list.length = MAX_OF_SURFACES) (hb : backend ≠ 0)
    (hps : ps.length = MAX_OF_SURFACES) (hnn : ∀ p ∈ ps, p ≠ 0) :
    ((create_surface s backend).1 = 0 ↔ is_full s) ∧
    (create_surfaces (display_init startup) ps).1 = ps ∧
    (∀ r ∈ (create_surfaces (display_init startup) ps).1, r ≠ 0) ∧
    create_surface (create_surfaces (display_init startup) ps).2 q =
      (0, (create_surfaces (display_init startup) ps).2) := by
  have hrun : create_surfaces (display_init startup) ps =
      (ps, { surfaces_list := ps, surfaces_counter := uint32_inc^[ps.length] 0 }) := by
    have h := create_surfaces_fill ps [] 0 0 (fun x hx => absurd hx (List.not_mem_nil x)) hnn
      (by simp only [List.length_nil]; omega)
    simp only [List.nil_append, Nat.add_zero, List.replicate_zero, List.append_nil] at h
    rw [display_init_startup, ← hps]
    exact h
  refine ⟨?_, ?_, ?_, ?_⟩
  · constructor
    · intro hnull
      by_contra hnf
      have hex : ¬ create_surface_scan s.surfaces_list MAX_OF_SURFACES 0 < 0 := by
        rw [create_surface_scan_neg_iff, ← hlen]
        intro hall
        exact hnf ((full_iff_getD s.surfaces_list).mpr hall)
      unfold create_surface at hnull
      simp only [hex, if_false, if_neg hb] at hnull
      exact hb hnull
    · intro hfull
      rw [create_surface_full s backend hlen hfull]
  · rw [hrun]
  · rw [hrun]; exact hnn
  · rw [hrun]
    exact create_surface_full _ q hps hnn

theorem create_surface_capacity_witness :
    ((create_surface startup 7).1 = 0 ↔ is_full startup) ∧
    (create_surfaces (display_init startup) (List.range' 1 100)).1 = List.range' 1 100 ∧
    (∀ r ∈ (create_surfaces (display_init startup) (List.range' 1 100)).1, r ≠ 0) ∧
    create_surface (create_surfaces (display_init startup) (List.range' 1 100)).2 9 =
      (0, (create_surfaces (display_init startup) (List.range' 1 100)).2) :=
  create_surface_capacity startup 7 (List.range' 1 100) 9 (by decide) (by decide)
    (by decide) (by decide)

theorem distinct_slots :
    ∀ (l : List SurfacePtr), (l.filter (fun p => decide (p ≠ 0))).Nodup →
      ∀ i k, i < l.length → k < l.length → l.getD i 0 = l.getD k 0 → l.getD i 0 ≠ 0 →
        i = k := by
  intro l
  induction l with
  | nil => intro _ i k hi; simp at hi
  | cons a l ih =>
    intro hnd i k hi hk he hne
    have hndl : (l.filter (fun p => decide (p ≠ 0))).Nodup := by
      by_cases ha : a ≠ 0
      · rw [List.filter_cons_of_pos (by simpa using ha)] at hnd
        exact (List.nodup_cons.mp hnd).2
      · rw [List.filter_cons_of_neg (by simpa using ha)] at hnd
        exact hnd
    have hnotin : ∀ m, m < l.length → l.getD m 0 = a → a ≠ 0 → False := by
      intro m hm hma ha
      rw [List.filter_cons_of_pos (by simpa using ha)] at hnd
      apply (List.nodup_cons.mp hnd).1
      rw [List.mem_filter]
      refine ⟨?_, by simpa using ha⟩
      rw [← hma, getD_of_lt l m hm]
      exact List.getElem_mem hm
    cases i with
    | zero =>
      cases k with
      | zero => rfl
      | succ k =>
        simp only [List.length_cons] at hk
        simp only [List.getD_cons_zero, List.getD_cons_succ] at he hne
        exact absurd (hnotin k (by omega) he.symm hne) id
    | succ i =>
      cases k with
      | zero =>
        simp only [List.length_cons] at hi
        simp only [List.getD_cons_zero, List.getD_cons_succ] at he hne
        exact absurd (hnotin i (by omega) he (he ▸ hne)) id
      | succ k =>
        simp only [List.length_cons] at hi hk
        simp only [List.getD_cons_succ] at he hne
        rw [ih hndl i k (by omega) (by omega) he hne]

theorem getD_set_self (l : List SurfacePtr) (j : Nat) (v : SurfacePtr) (hj : j < l.length) :
    (l.set j v).getD j 0 = v := by
  simp [List.getD_eq_getElem?_getD, List.getElem?_set_self, hj]

theorem getD_set_other (l : List SurfacePtr) (j k : Nat) (v : SurfacePtr) (hjk : j ≠ k) :
    (l.set j v).getD k 0 = l.getD k 0 := by
  simp [List.getD_eq_getElem?_getD, List.getElem?_set_ne hjk]

theorem free_surface_first (s : Registry) (h : SurfacePtr) (j : Nat) (hh : h ≠ 0)
    (hj : j < MAX_OF_SURFACES) (hjh : s.surfaces_list.getD j 0 = h)
    (hbefore : ∀ k, k < j → s.surfaces_list.getD k 0 ≠ h) :
    free_surface s h = some
      { surfaces_list := s.surfaces_list.set j 0,
        surfaces_counter := uint32_dec s.surfaces_counter } :=
  free_surface_loop_found h s hh MAX_OF_SURFACES 0 j (Nat.zero_le j) (by omega) hjh
    (fun k _ hk => hbefore k hk)

theorem free_surface_absent (s : Registry) (h : SurfacePtr)
    (hlen : s.surfaces_list.length = MAX_OF_SURFACES) (habs : h ∉ s.surfaces_list) :
    free_surface s h = some s := by
  unfold free_surface
  apply free_surface_loop_absent
  rw [← hlen]
  exact (absent_iff_getD s.surfaces_list h).mp habs

/-- C2: in a full registry whose handles are pairwise distinct, a live
handle h sits in exactly one slot j; free_surface(h) clears that slot, and
a following create_surface whose backend allocation succeeds returns the
new non-null pointer, stores it in slot j, and leaves the registry full
with surfaces_counter at its value before the two calls. -/
theorem free_then_create_reuses_slot (s : Registry) (h backend : SurfacePtr)
    (hwt : s.WellTyped) (hfull : is_full s) (hdist : distinct_handles s)
    (hlive : h ∈ s.surfaces_list) (hb : backend ≠ 0) :
    ∃ j, j < MAX_OF_SURFACES ∧ s.surfaces_list.getD j 0 = h ∧
      (∀ k, k < MAX_OF_SURFACES → s.surfaces_list.getD k 0 = h → k = j) ∧
      ∃ s1, free_surface s h = some s1 ∧
        create_surface s1 backend =
          (backend, { surfaces_list := s.surfaces_list.set j backend,
                      surfaces_counter := s.surfaces_counter }) ∧
        is_full (create_surface s1 backend).2 ∧
        (create_surface s1 backend).2.surfaces_counter = s.surfaces_counter := by
  obtain ⟨hlen, hc⟩ := hwt
  have hh : h ≠ 0 := hfull h hlive
  obtain ⟨j, hjl, hjh⟩ := List.getElem_of_mem hlive
  have hjd : s.surfaces_list.getD j 0 = h := by rw [getD_of_lt _ j hjl]; exact hjh
  have huniq : ∀ k, k < MAX_OF_SURFACES → s.surfaces_list.getD k 0 = h → k = j := by
    intro k hk hkh
    exact distinct_slots s.surfaces_list hdist k j (by omega) hjl (by rw [hkh, hjd])
      (by rw [hkh]; exact hh)
  have hfree := free_surface_first s h j hh (by omega) hjd
    (fun k hk hkh => by have := huniq k (by omega) hkh; omega)
  have hcreate := create_surface_first_free
    { surfaces_list := s.surfaces_list.set j 0,
      surfaces_counter := uint32_dec s.surfaces_counter } backend j (by omega)
    (getD_set_self _ j 0 hjl)
    (fun k hk => by
      show (s.surfaces_list.set j 0).getD k 0 ≠ 0
      rw [getD_set_other _ j k 0 (by omega), getD_of_lt _ k (by omega)]
      exact hfull _ (List.getElem_mem _))
    hb
  simp only [List.set_set, uint32_inc_dec _ hc] at hcreate
  refine ⟨j, by omega, hjd, huniq, _, hfree, hcreate, ?_, ?_⟩
  · rw [hcreate]
    intro p hp
    rcases List.mem_or_eq_of_mem_set hp with h1 | h1
    · exact hfull p h1
    · rw [h1]; exact hb
  · rw [hcreate]

theorem free_then_create_reuses_slot_witness :
    ∃ j, j < MAX_OF_SURFACES ∧
      (Registry.mk (List.range' 1 100) 100).surfaces_list.getD j 0 = 42 ∧
      (∀ k, k < MAX_OF_SURFACES →
        (Registry.mk (List.range' 1 100) 100).surfaces_list.getD k 0 = 42 → k = j) ∧
      ∃ s1, free_surface (Registry.mk (List.range' 1 100) 100) 42 = some s1 ∧
        create_surface s1 777 =
          (777, { surfaces_list := (Registry.mk (List.range' 1 100) 100).surfaces_list.set j 777,
                  surfaces_counter := (Registry.mk (List.range' 1 100) 100).surfaces_counter }) ∧
        is_full (create_surface s1 777).2 ∧
        (create_surface s1 777).2.surfaces_counter =
          (Registry.mk (List.range' 1 100) 100).surfaces_counter :=
  free_then_create_reuses_slot (Registry.mk (List.range' 1 100) 100) 42 777
    (by decide) (by decide) (by decide) (by decide) (by decide)

/-- C3: in every registry state whose surfaces_counter equals the number of
non-null slots, free_surfaces leaves every slot NULL and surfaces_counter
at 0, and a second free_surfaces leaves the registry exactly as the first
left it. -/
theorem free_surfaces_idempotent (s : Registry)
    (hlen : s.surfaces_list.length = MAX_OF_SURFACES)
    (hc : s.surfaces_counter = live_count s) :
    free_surfaces s =
      { surfaces_list := List.replicate MAX_OF_SURFACES 0, surfaces_counter := 0 } ∧
    (∀ p ∈ (free_surfaces s).surfaces_list, p = 0) ∧
    free_surfaces (free_surfaces s) = free_surfaces s := by
  have hle : live_count s ≤ MAX_OF_SURFACES := by
    rw [← hlen]; exact live_in_le_length s.surfaces_list
  have h1 : free_surfaces s =
      { surfaces_list := List.replicate MAX_OF_SURFACES 0, surfaces_counter := 0 } := by
    rw [free_surfaces_eq s hlen, hc,
      uint32_dec_iterate (live_count s) (live_count s) (Nat.le_refl _)
        (by unfold MAX_OF_SURFACES at hle; unfold UINT32_SIZE; omega),
      Nat.sub_self]
  refine ⟨h1, ?_, ?_⟩
  · rw [h1]
    intro p hp
    exact List.eq_of_mem_replicate hp
  · rw [h1, free_surfaces_eq _ (List.length_replicate _ _)]
    have h0 : live_count
        { surfaces_list := List.replicate MAX_OF_SURFACES 0, surfaces_counter := 0 } = 0 :=
      live_in_replicate_null MAX_OF_SURFACES
    rw [h0]
    rfl

theorem free_surfaces_idempotent_witness :
    free_surfaces (Registry.mk (5 :: 0 :: 9 :: List.replicate 97 0) 2) =
      { surfaces_list := List.replicate MAX_OF_SURFACES 0, surfaces_counter := 0 } ∧
    (∀ p ∈ (free_surfaces (Registry.mk (5 :: 0 :: 9 :: List.replicate 97 0) 2)).surfaces_list,
      p = 0) ∧
    free_surfaces (free_surfaces (Registry.mk (5 :: 0 :: 9 :: List.replicate 97 0) 2)) =
      free_surfaces (Registry.mk (5 :: 0 :: 9 :: List.replicate 97 0) 2) :=
  free_surfaces_idempotent (Registry.mk (5 :: 0 :: 9 :: List.replicate 97 0) 2)
    (by decide) (by decide)

theorem free_surface_twice (s : Registry) (g : SurfacePtr)
    (hlen : s.surfaces_list.length = MAX_OF_SURFACES) (hg : g ≠ 0)
    (hdist : distinct_handles s) :
    ∃ s1, free_surface s g = some s1 ∧ free_surface s1 g = some s1 := by
  by_cases hmem : g ∈ s.surfaces_list
  · obtain ⟨j, hjl, hjg⟩ := List.getElem_of_mem hmem
    have hjd : s.surfaces_list.getD j 0 = g := by rw [getD_of_lt _ j hjl]; exact hjg
    have huniq : ∀ k, k < s.surfaces_list.length → s.surfaces_list.getD k 0 = g → k = j := by
      intro k hk hkg
      exact distinct_slots s.surfaces_list hdist k j hk hjl (by rw [hkg, hjd])
        (by rw [hkg]; exact hg)
    have hfree := free_surface_first s g j hg (by omega) hjd
      (fun k hk hkg => by have := huniq k (by omega) hkg; omega)
    refine ⟨_, hfree, ?_⟩
    apply free_surface_absent
    · show (s.surfaces_list.set j 0).length = MAX_OF_SURFACES
      rw [List.length_set]; exact hlen
    · show g ∉ s.surfaces_list.set j 0
      intro hin
      obtain ⟨k, hkl, hkg⟩ := List.getElem_of_mem hin
      rw [List.length_set] at hkl
      have hkd : (s.surfaces_list.set j 0).getD k 0 = g := by
        rw [getD_of_lt _ k (by rw [List.length_set]; exact hkl)]; exact hkg
      by_cases hjk : j = k
      · subst hjk
        rw [getD_set_self _ j 0 hjl] at hkd
        exact hg hkd.symm
      · rw [getD_set_other _ j k 0 hjk] at hkd
        exact hjk (huniq k hkl hkd).symm
  · exact ⟨s, free_surface_absent s g hlen hmem, free_surface_absent s g hlen hmem⟩

/-- C4: free_surface on a handle that no slot of surfaces_list holds (such
as one already released) leaves every slot and surfaces_counter unchanged;
and in a registry where no handle occupies two slots, calling
free_surface twice on a non-null handle g leaves the registry as a single
call does. The first part needs no assumption on h being non-null. -/
theorem free_surface_released_noop (s : Registry) (h g : SurfacePtr)
    (hlen : s.surfaces_list.length = MAX_OF_SURFACES)
    (habs : h ∉ s.surfaces_list) (hg : g ≠ 0) (hdist : distinct_handles s) :
    free_surface s h = some s ∧
    ∃ s1, free_surface s g = some s1 ∧ free_surface s1 g = some s1 ∧
      (free_surface s g).bind (fun t => free_surface t g) = free_surface s g := by
  refine ⟨free_surface_absent s h hlen habs, ?_⟩
  obtain ⟨s1, h1, h2⟩ := free_surface_twice s g hlen hg hdist
  refine ⟨s1, h1, h2, ?_⟩
  rw [h1, Option.some_bind, h2]

theorem free_surface_released_noop_witness :
    free_surface (Registry.mk (5 :: 0 :: 9 :: List.replicate 97 0) 2) 6 =
      some (Registry.mk (5 :: 0 :: 9 :: List.replicate 97 0) 2) ∧
    ∃ s1, free_surface (Registry.mk (5 :: 0 :: 9 :: List.replicate 97 0) 2) 9 = some s1 ∧
      free_surface s1 9 = some s1 ∧
      (free_surface (Registry.mk (5 :: 0 :: 9 :: List.replicate 97 0) 2) 9).bind
        (fun t => free_surface t 9) =
        free_surface (Registry.mk (5 :: 0 :: 9 :: List.replicate 97 0) 2) 9 :=
  free_surface_released_noop (Registry.mk (5 :: 0 :: 9 :: List.replicate 97 0) 2) 6 9
    (by decide) (by decide) (by decide) (by decide)

theorem create_surface_scan_found (l : List SurfacePtr) :
    ∀ n i, ¬ create_surface_scan l n i < 0 →
      ∃ j, i ≤ j ∧ j < i + n ∧ l.getD j 0 = 0 ∧ ∀ k, i ≤ k → k < j → l.getD k 0 ≠ 0 := by
  intro n
  induction n with
  | zero => intro i h; simp [create_surface_scan] at h
  | succ n ih =>
    intro i h
    simp only [create_surface_scan] at h
    by_cases h0 : l.getD i 0 = 0
    · exact ⟨i, Nat.le_refl i, by omega, h0, fun k h1 h2 => by omega⟩
    · rw [if_neg h0] at h
      obtain ⟨j, hj1, hj2, hj3, hj4⟩ := ih (i + 1) h
      refine ⟨j, by omega, by omega, hj3, ?_⟩
      intro k hk1 hk2
      by_cases hki : k = i
      · subst hki; exact h0
      · exact hj4 k (by omega) hk2

theorem create_surface_backend_fail (s : Registry) : create_surface s 0 = (0, s) := by
  unfold create_surface
  simp

theorem filter_live_null (pre rest : List SurfacePtr) :
    (pre ++ 0 :: rest).filter (fun p => decide (p ≠ 0)) =
      pre.filter (fun p => decide (p ≠ 0)) ++ rest.filter (fun p => decide (p ≠ 0)) := by
  simp [List.filter_append]

theorem filter_live_handle (pre rest : List SurfacePtr) (p : SurfacePtr) (hp : p ≠ 0) :
    (pre ++ p :: rest).filter (fun p => decide (p ≠ 0)) =
      pre.filter (fun p => decide (p ≠ 0)) ++ p :: rest.filter (fun p => decide (p ≠ 0)) := by
  simp [List.filter_append, hp]

theorem invariant_store (s : Registry) (j : Nat) (p : SurfacePtr)
    (hinv : registry_invariant s) (hj : j < MAX_OF_SURFACES)
    (h0 : s.surfaces_list.getD j 0 = 0) (hp : p ≠ 0) (hfresh : p ∉ s.surfaces_list) :
    registry_invariant
      { surfaces_list := s.surfaces_list.set j p,
        surfaces_counter := uint32_inc s.surfaces_counter } := by
  obtain ⟨hlen, hc, hle, hdist⟩ := hinv
  obtain ⟨pre, rest, hsplit, hpre⟩ := split_at_slot s.surfaces_list j (by omega)
  rw [h0] at hsplit
  have hset : s.surfaces_list.set j p = pre ++ p :: rest := by
    rw [hsplit, ← hpre, set_append_cons]
  have hlive : live_count s =
      (pre.filter (fun p => decide (p ≠ 0))).length +
        (rest.filter (fun p => decide (p ≠ 0))).length := by
    unfold live_count
    rw [hsplit, filter_live_null, List.length_append]
  have hlt : live_count s < MAX_OF_SURFACES := by
    have h1 := List.length_filter_le (fun p => decide (p ≠ 0)) pre
    have h2 := List.length_filter_le (fun p => decide (p ≠ 0)) rest
    have h3 : s.surfaces_list.length = pre.length + (rest.length + 1) := by
      rw [hsplit, List.length_append, List.length_cons]
    omega
  have hlive2 : live_count
      { surfaces_list := s.surfaces_list.set j p,
        surfaces_counter := uint32_inc s.surfaces_counter } = live_count s + 1 := by
    rw [hlive]
    show ((s.surfaces_list.set j p).filter (fun p => decide (p ≠ 0))).length = _
    rw [hset, filter_live_handle pre rest p hp, List.length_append, List.length_cons]
    omega
  refine ⟨?_, ?_, ?_, ?_⟩
  · show (s.surfaces_list.set j p).length = MAX_OF_SURFACES
    rw [List.length_set]; exact hlen
  · rw [hlive2]
    show uint32_inc s.surfaces_counter = live_count s + 1
    rw [hc, uint32_inc_small _ (by unfold MAX_OF_SURFACES at hlt; unfold UINT32_SIZE; omega)]
  · rw [hlive2]; omega
  · show ((s.surfaces_list.set j p).filter (fun p => decide (p ≠ 0))).Nodup
    rw [hset, filter_live_handle pre rest p hp, List.nodup_middle, List.nodup_cons]
    unfold distinct_handles at hdist
    rw [hsplit, filter_live_null] at hdist
    refine ⟨?_, hdist⟩
    intro hin
    apply hfresh
    rw [hsplit]
    rcases List.mem_append.mp hin with h1 | h1
    · exact List.mem_append_left _ (List.mem_filter.mp h1).1
    · exact List.mem_append_right _ (List.mem_cons_of_mem _ (List.mem_filter.mp h1).1)

theorem invariant_clear (s : Registry) (j : Nat)
    (hinv : registry_invariant s) (hj : j < MAX_OF_SURFACES)
    (hlive : s.surfaces_list.getD j 0 ≠ 0) :
    registry_invariant
      { surfaces_list := s.surfaces_list.set j 0,
        surfaces_counter := uint32_dec s.surfaces_counter } := by
  obtain ⟨hlen, hc, hle, hdist⟩ := hinv
  obtain ⟨pre, rest, hsplit, hpre⟩ := split_at_slot s.surfaces_list j (by omega)
  have hset : s.surfaces_list.set j 0 = pre ++ 0 :: rest := by
    rw [hsplit, ← hpre, set_append_cons]
  have hlive1 : live_count s =
      (pre.filter (fun p => decide (p ≠ 0))).length +
        (rest.filter (fun p => decide (p ≠ 0))).length + 1 := by
    unfold live_count
    rw [hsplit, filter_live_handle pre rest _ hlive, List.length_append, List.length_cons]
    omega
  have hlive2 : live_in (s.surfaces_list.set j 0) + 1 = live_count s := by
    rw [hlive1]
    show ((s.surfaces_list.set j 0).filter (fun p => decide (p ≠ 0))).length + 1 = _
    rw [hset, filter_live_null, List.length_append]
  refine ⟨?_, ?_, ?_, ?_⟩
  · show (s.surfaces_list.set j 0).length = MAX_OF_SURFACES
    rw [List.length_set]; exact hlen
  · show uint32_dec s.surfaces_counter = live_in (s.surfaces_list.set j 0)
    rw [hc, uint32_dec_pos _ (by omega)
      (by unfold MAX_OF_SURFACES at hle; unfold UINT32_SIZE; omega)]
    omega
  · show live_in (s.surfaces_list.set j 0) ≤ MAX_OF_SURFACES
    omega
  · show ((s.surfaces_list.set j 0).filter (fun p => decide (p ≠ 0))).Nodup
    unfold distinct_handles at hdist
    rw [hsplit, filter_live_handle pre rest _ hlive, List.nodup_middle, List.nodup_cons] at hdist
    rw [hset, filter_live_null]
    exact hdist.2

theorem invariant_of_reachable (s : Registry) (hr : Reachable s) : registry_invariant s := by
  induction hr with
  | init =>
    rw [display_init_startup]
    refine ⟨List.length_replicate _ _, ?_, ?_, ?_⟩
    · exact (live_in_replicate_null MAX_OF_SURFACES).symm
    · have h : live_count
          { surfaces_list := List.replicate MAX_OF_SURFACES 0, surfaces_counter := 0 } = 0 :=
        live_in_replicate_null MAX_OF_SURFACES
      rw [h]; exact Nat.zero_le _
    · decide
  | create s backend _ hfresh ih =>
    by_cases hb : backend = 0
    · rw [hb, create_surface_backend_fail]; exact ih
    · have hfr : backend ∉ s.surfaces_list := by
        rcases hfresh with h1 | h1
        · exact absurd h1 hb
        · exact h1
      by_cases hneg : create_surface_scan s.surfaces_list MAX_OF_SURFACES 0 < 0
      · have : create_surface s backend = (0, s) := by
          unfold create_surface
          simp only [hneg, if_true]
        rw [this]; exact ih
      · obtain ⟨j, _, hj2, hj3, hj4⟩ :=
          create_surface_scan_found s.surfaces_list MAX_OF_SURFACES 0 hneg
        rw [create_surface_first_free s backend j (by omega) hj3
          (fun k hk => hj4 k (Nat.zero_le k) hk) hb]
        exact invariant_store s j backend ih (by omega) hj3 hb hfr
  | free s s1 h _ hh hmem hfree ih =>
    obtain ⟨j, hjl, hjh⟩ := List.getElem_of_mem hmem
    have hjd : s.surfaces_list.getD j 0 = h := by rw [getD_of_lt _ j hjl]; exact hjh
    have huniq : ∀ k, k < s.surfaces_list.length → s.surfaces_list.getD k 0 = h → k = j := by
      intro k hk hkh
      exact distinct_slots s.surfaces_list ih.2.2.2 k j hk hjl (by rw [hkh, hjd])
        (by rw [hkh]; exact hh)
    have hj100 : j < MAX_OF_SURFACES := by rw [← ih.1]; exact hjl
    have hfirst := free_surface_first s h j hh hj100 hjd
      (fun k hk hkh => by have := huniq k (by omega) hkh; omega)
    rw [hfirst] at hfree
    rw [← Option.some.inj hfree]
    exact invariant_clear s j ih hj100 (by rw [hjd]; exact hh)
  | free_all s _ ih =>
    obtain ⟨hlen, hc, hle, _⟩ := ih
    have h0 : live_count
        { surfaces_list := List.replicate MAX_OF_SURFACES 0, surfaces_counter := 0 } = 0 :=
      live_in_replicate_null MAX_OF_SURFACES
    have hfs : free_surfaces s =
        { surfaces_list := List.replicate MAX_OF_SURFACES 0, surfaces_counter := 0 } := by
      rw [free_surfaces_eq s hlen, hc,
        uint32_dec_iterate (live_count s) (live_count s) (Nat.le_refl _)
          (by unfold MAX_OF_SURFACES at hle; unfold UINT32_SIZE; omega),
        Nat.sub_self]
    rw [hfs]
    refine ⟨List.length_replicate _ _, h0.symm, ?_, ?_⟩
    · rw [h0]; exact Nat.zero_le _
    · decide

/-- C5: in every state reachable from the empty registry by create_surface,
free_surface on a live handle, and free_surfaces, surfaces_counter equals
the number of non-null slots of surfaces_list, that number is at most 100,
and no handle occupies two slots: two slots holding the same non-null
pointer are the same slot. -/
theorem registry_invariant_reachable (s : Registry) (hr : Reachable s) :
    s.surfaces_counter = live_count s ∧ live_count s ≤ MAX_OF_SURFACES ∧
    distinct_handles s ∧
    ∀ i k, i < MAX_OF_SURFACES → k < MAX_OF_SURFACES →
      s.surfaces_list.getD i 0 = s.surfaces_list.getD k 0 → s.surfaces_list.getD i 0 ≠ 0 →
      i = k := by
  obtain ⟨hlen, hc, hle, hdist⟩ := invariant_of_reachable s hr
  refine ⟨hc, hle, hdist, ?_⟩
  intro i k hi hk
  exact distinct_slots s.surfaces_list hdist i k (by omega) (by omega)

theorem registry_invariant_reachable_witness :
    (create_surface (display_init startup) 5).2.surfaces_counter =
      live_count (create_surface (display_init startup) 5).2 ∧
    live_count (create_surface (display_init startup) 5).2 ≤ MAX_OF_SURFACES ∧
    distinct_handles (create_surface (display_init startup) 5).2 ∧
    ∀ i k, i < MAX_OF_SURFACES → k < MAX_OF_SURFACES →
      (create_surface (display_init startup) 5).2.surfaces_list.getD i 0 =
        (create_surface (display_init startup) 5).2.surfaces_list.getD k 0 →
      (create_surface (display_init startup) 5).2.surfaces_list.getD i 0 ≠ 0 →
      i = k :=
  registry_invariant_reachable (create_surface (display_init startup) 5).2
    (Reachable.create (display_init startup) 5 Reachable.init (Or.inr (by decide)))

/-! ### Lemmas on the composition -/

theorem to_Sint16_of_fits (v : Int) (h : fits_Sint16 v) : to_Sint16 v = v := by
  unfold fits_Sint16 at h
  unfold to_Sint16
  omega

theorem display_options_step_eq (d : Display) (k : Nat) (hk : d.opt_refresh_index = (k : Int)) :
    display_options_step d =
      { d with opt_refresh_index := (k : Int) - 1,
               blits := d.blits ++ [option_entry_blit d k] } := by
  unfold display_options_step SDL_BlitSurface option_entry_blit get_rect
  simp only [hk, Int.toNat_ofNat]
  have h28 : to_Sint16 28 = 28 := by decide
  rw [h28]

theorem display_options_loop_spec :
    ∀ (k fuel : Nat) (d : Display), d.opt_refresh_index = (k : Int) - 1 → k ≤ fuel →
      display_options_loop fuel d =
        { d with opt_refresh_index := -1,
                 blits := d.blits ++ (List.range k).reverse.map (option_entry_blit d) } := by
  intro k
  induction k with
  | zero =>
    intro fuel d hidx _
    have hneg : ¬ d.opt_refresh_index ≥ 0 := by omega
    have hloop : display_options_loop fuel d = d := by
      cases fuel with
      | zero => rfl
      | succ fuel => simp only [display_options_loop, if_neg hneg]
    rw [hloop]
    cases d
    simp only [List.range_zero, List.reverse_nil, List.map_nil, List.append_nil] at hidx ⊢
    simp only [Display.mk.injEq, true_and, and_true]
    omega
  | succ k ih =>
    intro fuel d hidx hfuel
    have hk : d.opt_refresh_index = (k : Int) := by omega
    cases fuel with
    | zero => omega
    | succ fuel =>
      have hpos : d.opt_refresh_index ≥ 0 := by omega
      simp only [display_options_loop, if_pos hpos]
      rw [display_options_step_eq d k hk, ih fuel _ rfl (by omega)]
      simp only [List.range_succ, List.reverse_append, List.reverse_cons, List.reverse_nil,
        List.nil_append, List.singleton_append, List.map_cons, List.append_assoc]
      rfl

theorem display_options_drain (d : Display) :
    display_options_loop (d.opt_refresh_index + 1).toNat d =
      { d with
        opt_refresh_index := (if 0 ≤ d.opt_refresh_index then -1 else d.opt_refresh_index),
        blits := d.blits ++
          (List.range (d.opt_refresh_index + 1).toNat).reverse.map (option_entry_blit d) } := by
  by_cases h : -1 ≤ d.opt_refresh_index
  · rw [display_options_loop_spec (d.opt_refresh_index + 1).toNat _ d (by omega) (Nat.le_refl _)]
    by_cases h0 : 0 ≤ d.opt_refresh_index
    · rw [if_pos h0]
    · rw [if_neg h0]
      have : d.opt_refresh_index = -1 := by omega
      rw [this]
  · have ht : (d.opt_refresh_index + 1).toNat = 0 := by omega
    rw [ht, if_neg (by omega)]
    cases d
    simp [display_options_loop]

theorem display_viewport_eq (d : Display) :
    display_viewport d = { d with blits := d.blits ++ [viewport_blit d] } := by
  unfold display_viewport SDL_BlitSurface viewport_blit get_rect
  have h0 : to_Sint16 0 = 0 := by decide
  have h16 : to_Sint16 16 = 16 := by decide
  rw [h0, h16]

theorem display_incremental_spec (d : Display) (hu : d.update_all = false) :
    display d =
      { d with
        opt_refresh_index := (if 0 ≤ d.opt_refresh_index then -1 else d.opt_refresh_index),
        score_x2_refresh := false,
        score_x4_refresh := false,
        energy_gauge_spaceship_is_update := false,
        energy_gauge_guard_is_update := false,
        is_player_score_displayed := false,
        blits := d.blits ++ viewport_blit d ::
          ((List.range (d.opt_refresh_index + 1).toNat).reverse.map (option_entry_blit d) ++
            score_x2_blit :: score_x4_blit :: hud_blits d) } := by
  rcases d with ⟨clip, wv, hv, dw, dh, sw, ow, oh, sh, movie, upd, idx, tbl, x2, x4, ship,
    guard, score, log⟩
  simp only at hu
  subst hu
  unfold display
  simp only [display_viewport_eq, Bool.false_eq_true, if_false]
  unfold display_incremental
  rw [display_options_drain]
  have hentry : ∀ l : List Blit,
      option_entry_blit
        ⟨clip, wv, hv, dw, dh, sw, ow, oh, sh, movie, false, idx, tbl, x2, x4, ship, guard,
          score, l⟩ =
      option_entry_blit
        ⟨clip, wv, hv, dw, dh, sw, ow, oh, sh, movie, false, idx, tbl, x2, x4, ship, guard,
          score, log⟩ := fun _ => rfl
  simp only [hentry]
  cases ship <;> cases guard <;> cases score <;>
    simp [display_score_x2, display_score_x4, display_energy_spaceship, display_energy_guard,
      display_player_score, SDL_BlitSurface, get_rect, to_Sint16, hud_blits, score_x2_blit,
      score_x4_blit, energy_spaceship_blit, energy_guard_blit, player_score_blit]

theorem display_full_spec (d : Display) (hu : d.update_all = true) :
    display d =
      { d with
        opt_refresh_index := -1,
        update_all := false,
        blits := d.blits ++ [viewport_blit d, option_panel_blit d, score_panel_blit d] } := by
  rcases d with ⟨clip, wv, hv, dw, dh, sw, ow, oh, sh, movie, upd, idx, tbl, x2, x4, ship,
    guard, score, log⟩
  simp only at hu
  subst hu
  unfold display
  simp only [display_viewport_eq, if_true]
  have h0 : to_Sint16 0 = 0 := by decide
  have h16 : to_Sint16 16 = 16 := by decide
  simp [display_full, SDL_BlitSurface, get_rect, option_panel_blit, score_panel_blit, h0, h16]

theorem display_update_window_idle (d : Display) (hm : d.movie_surface = 0) :
    display_update_window d = display d := by
  unfold display_update_window
  rw [if_neg (by simp [hm])]

theorem issued_append (d e : Display) (l : List Blit) (h : e.blits = d.blits ++ l) :
    issued d e = l := by
  unfold issued
  rw [h, List.drop_left]

/-- C6, as the code has it: a composition entered with update_all set and
no movie active leaves update_all FALSE and the option-panel dirty list
empty (opt_refresh_index = -1), and leaves score_x2_refresh,
score_x4_refresh, energy_gauge_spaceship_is_update,
energy_gauge_guard_is_update and is_player_score_displayed at the values
they had on entry. -/
theorem full_redraw_postcondition (d : Display) (hm : d.movie_surface = 0)
    (hu : d.update_all = true) :
    (display_update_window d).update_all = false ∧
    (display_update_window d).opt_refresh_index = -1 ∧
    (display_update_window d).score_x2_refresh = d.score_x2_refresh ∧
    (display_update_window d).score_x4_refresh = d.score_x4_refresh ∧
    (display_update_window d).energy_gauge_spaceship_is_update =
      d.energy_gauge_spaceship_is_update ∧
    (display_update_window d).energy_gauge_guard_is_update = d.energy_gauge_guard_is_update ∧
    (display_update_window d).is_player_score_displayed = d.is_player_score_displayed := by
  rw [display_update_window_idle d hm, display_full_spec d hu]
  exact ⟨rfl, rfl, rfl, rfl, rfl, rfl, rfl⟩

theorem full_redraw_postcondition_witness :
    (sample_display true 2 true false true false true).movie_surface = 0 ∧
    (sample_display true 2 true false true false true).update_all = true ∧
    (display_update_window (sample_display true 2 true false true false true)).update_all
      = false ∧
    (display_update_window (sample_display true 2 true false true false true)).opt_refresh_index
      = -1 ∧
    (display_update_window (sample_display true 2 true false true false true)).score_x2_refresh
      = (sample_display true 2 true false true false true).score_x2_refresh ∧
    (display_update_window (sample_display true 2 true false true false true)).score_x4_refresh
      = (sample_display true 2 true false true false true).score_x4_refresh ∧
    (display_update_window
        (sample_display true 2 true false true false true)).energy_gauge_spaceship_is_update
      = (sample_display true 2 true false true false true).energy_gauge_spaceship_is_update ∧
    (display_update_window
        (sample_display true 2 true false true false true)).energy_gauge_guard_is_update
      = (sample_display true 2 true false true false true).energy_gauge_guard_is_update ∧
    (display_update_window
        (sample_display true 2 true false true false true)).is_player_score_displayed
      = (sample_display true 2 true false true false true).is_player_score_displayed :=
  ⟨rfl, rfl,
    full_redraw_postcondition (sample_display true 2 true false true false true) rfl rfl⟩

/-- C6 as stated fails: entered with update_all set, no movie, and the
score digits flag set, a composition leaves is_player_score_displayed set,
so not all granular dirty flags are false afterwards. -/
theorem full_redraw_keeps_hud_flags :
    ¬ ((display_update_window
          (sample_display true (-1) false false false false true)).update_all = false ∧
       (display_update_window
          (sample_display true (-1) false false false false true)).opt_refresh_index = -1 ∧
       (display_update_window
          (sample_display true (-1) false false false false true)).score_x2_refresh = false ∧
       (display_update_window
          (sample_display true (-1) false false false false true)).score_x4_refresh = false ∧
       (display_update_window
          (sample_display true (-1) false false false false
            true)).energy_gauge_spaceship_is_update = false ∧
       (display_update_window
          (sample_display true (-1) false false false false
            true)).energy_gauge_guard_is_update = false ∧
       (display_update_window
          (sample_display true (-1) false false false false
            true)).is_player_score_displayed = false) := by
  decide

/-- C7, what the code does: a composition entered with update_all FALSE, no
movie, an empty option-panel dirty list and all five HUD flags FALSE makes
three blits into the presentation buffer, not one: the game viewport, then
the x2 icon and the x4 icon, both from the option-panel surface. The same
holds when score_x2_refresh or score_x4_refresh is set. -/
theorem idle_composition_blits (d : Display) (hm : d.movie_surface = 0)
    (hu : d.update_all = false) (hidx : d.opt_refresh_index = -1)
    (hship : d.energy_gauge_spaceship_is_update = false)
    (hguard : d.energy_gauge_guard_is_update = false)
    (hscore : d.is_player_score_displayed = false) :
    issued d (display_update_window d) = [viewport_blit d, score_x2_blit, score_x4_blit] ∧
    (issued d (display_update_window d)).length = 3 ∧
    score_x2_blit.src = Surface.options_surface ∧
    score_x4_blit.src = Surface.options_surface := by
  have h : issued d (display_update_window d) =
      [viewport_blit d, score_x2_blit, score_x4_blit] := by
    apply issued_append
    rw [display_update_window_idle d hm, display_incremental_spec d hu]
    simp [hidx, hud_blits, hship, hguard, hscore]
  rw [h]
  exact ⟨rfl, rfl, rfl, rfl⟩

theorem idle_composition_blits_witness :
    issued (sample_display false (-1) false false false false false)
        (display_update_window (sample_display false (-1) false false false false false)) =
      [viewport_blit (sample_display false (-1) false false false false false),
        score_x2_blit, score_x4_blit] ∧
    (issued (sample_display false (-1) false false false false false)
        (display_update_window
          (sample_display false (-1) false false false false false))).length = 3 ∧
    score_x2_blit.src = Surface.options_surface ∧
    score_x4_blit.src = Surface.options_surface :=
  idle_composition_blits (sample_display false (-1) false false false false false)
    rfl rfl rfl rfl rfl rfl

/-- C8, as the code has it: a composition entered with update_all set and
no movie active makes exactly three blits into the presentation buffer, in
this order: the game viewport to column 0, row 16; the option panel to
column (Sint16) offscreen_width_visible, row 16; the score panel to column
0, row 0. There is no separate HUD blit. The update_all flag is FALSE
afterwards. -/
theorem full_redraw_blits (d : Display) (hm : d.movie_surface = 0)
    (hu : d.update_all = true) :
    issued d (display_update_window d) =
      [viewport_blit d, option_panel_blit d, score_panel_blit d] ∧
    (viewport_blit d).dst = Surface.public_surface ∧
    (viewport_blit d).dstrect.x = 0 ∧ (viewport_blit d).dstrect.y = 16 ∧
    (option_panel_blit d).dst = Surface.public_surface ∧
    (option_panel_blit d).dstrect.x = to_Sint16 d.offscreen_width_visible ∧
    (option_panel_blit d).dstrect.y = 16 ∧
    (score_panel_blit d).dst = Surface.public_surface ∧
    (score_panel_blit d).dstrect.x = 0 ∧ (score_panel_blit d).dstrect.y = 0 ∧
    (display_update_window d).update_all = false := by
  refine ⟨?_, rfl, rfl, rfl, rfl, rfl, rfl, rfl, rfl, rfl, ?_⟩
  · apply issued_append
    rw [display_update_window_idle d hm, display_full_spec d hu]
  · rw [display_update_window_idle d hm, display_full_spec d hu]

theorem full_redraw_blits_witness :
    issued (sample_display true (-1) false false false false true)
        (display_update_window (sample_display true (-1) false false false false true)) =
      [viewport_blit (sample_display true (-1) false false false false true),
        option_panel_blit (sample_display true (-1) false false false false true),
        score_panel_blit (sample_display true (-1) false false false false true)] ∧
    (display_update_window
      (sample_display true (-1) false false false false true)).update_all = false :=
  ⟨(full_redraw_blits (sample_display true (-1) false false false false true) rfl rfl).1,
    (full_redraw_blits (sample_display true (-1) false false false false true)
      rfl rfl).2.2.2.2.2.2.2.2.2.2⟩

/-- C8 as stated fails: entered with update_all set, no movie, and only the
score digits flag dirty, a composition does not make four blits viewport,
HUD, option panel, score panel: whatever the HUD blit is taken to be, the
log does not have that shape. -/
theorem full_redraw_has_no_hud_blit :
    ¬ ∃ hud : Blit,
      issued (sample_display true (-1) false false false false true)
          (display_update_window (sample_display true (-1) false false false false true)) =
        [viewport_blit (sample_display true (-1) false false false false true), hud,
          option_panel_blit (sample_display true (-1) false false false false true),
          score_panel_blit (sample_display true (-1) false false false false true)] := by
  rintro ⟨hud, h⟩
  have h3 : (issued (sample_display true (-1) false false false false true)
      (display_update_window
        (sample_display true (-1) false false false false true))).length = 3 := by
    decide
  rw [h] at h3
  simp at h3

theorem range_map_getD (l : List OptionRefresh) (dflt : OptionRefresh) (m : Nat)
    (hm : m ≤ l.length) : (List.range m).map (fun i => l.getD i dflt) = l.take m := by
  apply List.ext_getElem
  · simp [hm]
  · intro i h1 h2
    simp only [List.length_map, List.length_range] at h1
    simp [List.getD_eq_getElem?_getD, List.getElem?_eq_getElem (by omega : i < l.length)]

theorem option_cast_blit_of_fits (w : Int) (e : OptionRefresh) (hfit : entry_fits w e) :
    option_cast_blit w e = option_square_blit w e := by
  obtain ⟨h1, h2, h3, h4⟩ := hfit
  unfold option_cast_blit option_square_blit
  rw [to_Sint16_of_fits _ h1, to_Sint16_of_fits _ h2, to_Sint16_of_fits _ h3,
    to_Sint16_of_fits _ h4]

theorem drained_entries (d : Display) (n : Nat) (hlen : n < d.options_refresh.length) :
    (List.range (n + 1)).reverse.map (option_entry_blit d) =
      (d.options_refresh.take (n + 1)).reverse.map
        (option_cast_blit d.offscreen_width_visible) := by
  rw [← range_map_getD d.options_refresh { coord_x := 0, coord_y := 0 } (n + 1) (by omega),
    ← List.map_reverse, List.map_map]
  apply List.map_congr_left
  intro i _
  rfl

/-- C9, as the code has it: an incremental composition (update_all FALSE,
no movie) entered with opt_refresh_index = n >= 0, n an index of the
options_refresh table, drains the dirty list as a stack. The loop ends
after n + 1 iterations whatever larger bound it is given, with
opt_refresh_index = -1; right after the viewport blit it issues n + 1
option-panel blits, for entries n, n-1, ..., 0 in that order, entry i from
((Sint16) x_i, (Sint16) y_i, 28, 28) to
((Sint16) (offscreen_width_visible + x_i), (Sint16) (16 + y_i), 28, 28);
the icon and HUD blits follow. For an entry whose four coordinates are in
the range of Sint16 these are the rectangles (x_i, y_i, 28, 28) and
(offscreen_width_visible + x_i, 16 + y_i, 28, 28). -/
theorem options_drained_as_stack (d : Display) (n : Nat) (hm : d.movie_surface = 0)
    (hu : d.update_all = false) (hidx : d.opt_refresh_index = (n : Int))
    (hlen : n < d.options_refresh.length) :
    (∀ fuel, n + 1 ≤ fuel →
      (display_options_loop fuel d).opt_refresh_index = -1 ∧
      issued d (display_options_loop fuel d) =
        (d.options_refresh.take (n + 1)).reverse.map
          (option_cast_blit d.offscreen_width_visible)) ∧
    (display_update_window d).opt_refresh_index = -1 ∧
    issued d (display_update_window d) =
      viewport_blit d ::
        ((d.options_refresh.take (n + 1)).reverse.map
            (option_cast_blit d.offscreen_width_visible) ++
          score_x2_blit :: score_x4_blit :: hud_blits d) ∧
    ((d.options_refresh.take (n + 1)).reverse.map
      (option_cast_blit d.offscreen_width_visible)).length = n + 1 ∧
    (∀ e : OptionRefresh, entry_fits d.offscreen_width_visible e →
      option_cast_blit d.offscreen_width_visible e =
        option_square_blit d.offscreen_width_visible e) := by
  have hdr := drained_entries d n hlen
  refine ⟨?_, ?_, ?_, ?_, ?_⟩
  · intro fuel hfuel
    rw [display_options_loop_spec (n + 1) fuel d (by rw [hidx]; simp) hfuel]
    refine ⟨rfl, ?_⟩
    apply issued_append
    rw [← hdr]
  · rw [display_update_window_idle d hm, display_incremental_spec d hu]
    show (if 0 ≤ d.opt_refresh_index then -1 else d.opt_refresh_index) = -1
    rw [if_pos (by omega)]
  · apply issued_append
    rw [display_update_window_idle d hm, display_incremental_spec d hu]
    have ht : (d.opt_refresh_index + 1).toNat = n + 1 := by omega
    show d.blits ++ viewport_blit d ::
      ((List.range (d.opt_refresh_index + 1).toNat).reverse.map (option_entry_blit d) ++
        score_x2_blit :: score_x4_blit :: hud_blits d) = _
    rw [ht, hdr]
  · rw [List.length_map, List.length_reverse, List.length_take]
    omega
  · intro e he
    exact option_cast_blit_of_fits _ e he

theorem options_drained_as_stack_witness :
    (display_update_window
      (sample_display false 2 false false false false false)).opt_refresh_index = -1 ∧
    issued (sample_display false 2 false false false false false)
        (display_update_window (sample_display false 2 false false false false false)) =
      viewport_blit (sample_display false 2 false false false false false) ::
        (((sample_display false 2 false false false false false).options_refresh.take
              (2 + 1)).reverse.map
            (option_cast_blit
              (sample_display false 2 false false false false false).offscreen_width_visible) ++
          score_x2_blit :: score_x4_blit ::
            hud_blits (sample_display false 2 false false false false false)) :=
  ⟨(options_drained_as_stack (sample_display false 2 false false false false false) 2
      rfl rfl rfl (by decide)).2.1,
   (options_drained_as_stack (sample_display false 2 false false false false false) 2
      rfl rfl rfl (by decide)).2.2.1⟩

/-- C9 as stated fails: entered with opt_refresh_index = 0 and the entry
(40000, -40000), the incremental composition does not blit from
(40000, -40000, 28, 28) to (offscreen_width_visible + 40000, 16 - 40000,
28, 28): the casts wrap the coordinates, to the source corner
(-25536, 25536) and the destination corner (-25280, 25552). -/
theorem options_drain_wraps_coordinates :
    ¬ (issued wrapped_display (display_update_window wrapped_display) =
        viewport_blit wrapped_display ::
          ((wrapped_display.options_refresh.take (0 + 1)).reverse.map
              (option_square_blit wrapped_display.offscreen_width_visible) ++
            score_x2_blit :: score_x4_blit :: hud_blits wrapped_display)) ∧
    issued wrapped_display (display_update_window wrapped_display) =
      [viewport_blit wrapped_display,
        { src := Surface.options_surface,
          srcrect := { x := -25536, y := 25536, w := 28, h := 28 },
          dst := Surface.public_surface,
          dstrect := { x := -25280, y := 25552, w := 28, h := 28 } },
        score_x2_blit, score_x4_blit] := by
  decide

theorem count_in_drained (d : Display) (b : Blit) (hb : b.src = Surface.score_surface)
    (l : List Nat) : (l.map (option_entry_blit d)).count b = 0 := by
  rw [List.count_eq_zero]
  intro hmem
  obtain ⟨i, _, hi⟩ := List.mem_map.mp hmem
  rw [← hi] at hb
  simp [option_entry_blit] at hb

/-- C10, what the code does: in an incremental composition (update_all
FALSE, no movie) the three HUD flags are FALSE on exit and the boss energy
bar and the score digits are blitted once when their flag was set and not
at all when it was clear, but the player energy bar (region 210,3,100,9)
is blitted twice when energy_gauge_spaceship_is_update was set, not once. -/
theorem hud_flags_blit_counts (d : Display) (hm : d.movie_surface = 0)
    (hu : d.update_all = false) :
    (issued d (display_update_window d)).count energy_spaceship_blit =
      (if d.energy_gauge_spaceship_is_update then 2 else 0) ∧
    (issued d (display_update_window d)).count energy_guard_blit =
      (if d.energy_gauge_guard_is_update then 1 else 0) ∧
    (issued d (display_update_window d)).count player_score_blit =
      (if d.is_player_score_displayed then 1 else 0) ∧
    (display_update_window d).energy_gauge_spaceship_is_update = false ∧
    (display_update_window d).energy_gauge_guard_is_update = false ∧
    (display_update_window d).is_player_score_displayed = false := by
  have hiss : issued d (display_update_window d) =
      viewport_blit d ::
        ((List.range (d.opt_refresh_index + 1).toNat).reverse.map (option_entry_blit d) ++
          score_x2_blit :: score_x4_blit :: hud_blits d) := by
    apply issued_append
    rw [display_update_window_idle d hm, display_incremental_spec d hu]
  have hst : (display_update_window d).energy_gauge_spaceship_is_update = false ∧
      (display_update_window d).energy_gauge_guard_is_update = false ∧
      (display_update_window d).is_player_score_displayed = false := by
    rw [display_update_window_idle d hm, display_incremental_spec d hu]
    exact ⟨rfl, rfl, rfl⟩
  have hc : ∀ b : Blit, b.src = Surface.score_surface →
      (issued d (display_update_window d)).count b = (hud_blits d).count b := by
    intro b hb
    have h1 : viewport_blit d ≠ b := by
      intro e; rw [← e] at hb; simp [viewport_blit] at hb
    have h2 : score_x2_blit ≠ b := by
      intro e; rw [← e] at hb; simp [score_x2_blit] at hb
    have h3 : score_x4_blit ≠ b := by
      intro e; rw [← e] at hb; simp [score_x4_blit] at hb
    rw [hiss, List.count_cons_of_ne h1.symm, List.count_append, count_in_drained d b hb,
      List.count_cons_of_ne h2.symm, List.count_cons_of_ne h3.symm, Nat.zero_add]
  refine ⟨?_, ?_, ?_, hst.1, hst.2.1, hst.2.2⟩
  · rw [hc _ rfl]
    unfold hud_blits
    cases d.energy_gauge_spaceship_is_update <;> cases d.energy_gauge_guard_is_update <;>
      cases d.is_player_score_displayed <;> decide
  · rw [hc _ rfl]
    unfold hud_blits
    cases d.energy_gauge_spaceship_is_update <;> cases d.energy_gauge_guard_is_update <;>
      cases d.is_player_score_displayed <;> decide
  · rw [hc _ rfl]
    unfold hud_blits
    cases d.energy_gauge_spaceship_is_update <;> cases d.energy_gauge_guard_is_update <;>
      cases d.is_player_score_displayed <;> decide

theorem hud_flags_blit_counts_witness :
    (issued (sample_display false (-1) false false true false false)
      (display_update_window
        (sample_display false (-1) false false true false false))).count
        energy_spaceship_blit = 2 :=
  (hud_flags_blit_counts (sample_display false (-1) false false true false false) rfl rfl).1

/-! ### Movie playback, frame pacing and the main loop -/

theorem free_surface_loop_some (h : SurfacePtr) (s : Registry) (hh : h ≠ 0) :
    ∀ n i, ∃ s1, free_surface_loop h s n i = some s1 := by
  intro n
  induction n with
  | zero => intro i; exact ⟨s, rfl⟩
  | succ n ih =>
    intro i
    simp only [free_surface_loop]
    by_cases hi : s.surfaces_list.getD i 0 = h
    · rw [if_pos hi, if_neg hh]; exact ⟨_, rfl⟩
    · rw [if_neg hi]; exact ih (i + 1)

theorem display_update_window_movie (d : Display) (hm : d.movie_surface ≠ 0) :
    display_update_window d =
      { d with update_all := true, blits := d.blits ++ [movie_blit d] } := by
  unfold display_update_window
  rw [if_pos hm]
  rfl

theorem destroy_movie_offscreen_spec (v : Video) (hm : v.display.movie_surface ≠ 0) :
    ∃ v1, destroy_movie_offscreen v = some v1 ∧
      v1.display = { v.display with movie_surface := 0 } := by
  unfold destroy_movie_offscreen
  by_cases hoff : v.movie_offscreen ≠ 0
  · rw [if_pos hoff]
    obtain ⟨r, hr⟩ := free_surface_loop_some v.display.movie_surface v.registry hm
      MAX_OF_SURFACES 0
    have hr2 : free_surface v.registry v.display.movie_surface = some r := hr
    rw [hr2]
    exact ⟨_, rfl, rfl⟩
  · rw [if_neg hoff]
    exact ⟨_, rfl, rfl⟩

/-- C11: a display_update_window call made while movie_surface is non-null
performs only the movie blit, leaves the dirty flags and the option-panel
dirty list as they were, and leaves update_all TRUE; destroy_movie_offscreen
then succeeds and clears movie_surface, and the next display_update_window
takes the full-redraw branch of display: viewport, whole option panel and
whole score panel are blitted and update_all is cleared. -/
theorem movie_forces_full_redraw (v : Video) (hm : v.display.movie_surface ≠ 0) :
    issued v.display (display_update_window v.display) = [movie_blit v.display] ∧
    (display_update_window v.display).update_all = true ∧
    (display_update_window v.display).opt_refresh_index = v.display.opt_refresh_index ∧
    (display_update_window v.display).score_x2_refresh = v.display.score_x2_refresh ∧
    (display_update_window v.display).score_x4_refresh = v.display.score_x4_refresh ∧
    (display_update_window v.display).energy_gauge_spaceship_is_update =
      v.display.energy_gauge_spaceship_is_update ∧
    (display_update_window v.display).energy_gauge_guard_is_update =
      v.display.energy_gauge_guard_is_update ∧
    (display_update_window v.display).is_player_score_displayed =
      v.display.is_player_score_displayed ∧
    ∃ v1, destroy_movie_offscreen { v with display := display_update_window v.display } =
        some v1 ∧
      v1.display.movie_surface = 0 ∧
      v1.display.update_all = true ∧
      issued v1.display (display_update_window v1.display) =
        [viewport_blit v1.display, option_panel_blit v1.display, score_panel_blit v1.display] ∧
      (display_update_window v1.display).update_all = false := by
  have hw := display_update_window_movie v.display hm
  refine ⟨?_, ?_, ?_, ?_, ?_, ?_, ?_, ?_, ?_⟩
  · apply issued_append; rw [hw]
  · rw [hw]
  · rw [hw]
  · rw [hw]
  · rw [hw]
  · rw [hw]
  · rw [hw]
  · rw [hw]
  · have hfull : ∀ d : Display, d.movie_surface = 0 → d.update_all = true →
        issued d (display_update_window d) =
          [viewport_blit d, option_panel_blit d, score_panel_blit d] ∧
        (display_update_window d).update_all = false := by
      intro d h0 hu
      rw [display_update_window_idle d h0, display_full_spec d hu]
      exact ⟨issued_append d _ _ rfl, rfl⟩
    obtain ⟨v1, hv1, hd1⟩ := destroy_movie_offscreen_spec
      { v with display := display_update_window v.display } (by rw [hw]; exact hm)
    have hms : v1.display.movie_surface = 0 := by rw [hd1]
    have hup : v1.display.update_all = true := by rw [hd1, hw]
    exact ⟨v1, hv1, hms, hup, hfull v1.display hms hup⟩

theorem movie_forces_full_redraw_witness :
    sample_video.display.movie_surface ≠ 0 ∧
    issued sample_video.display (display_update_window sample_video.display) =
      [movie_blit sample_video.display] ∧
    (display_update_window sample_video.display).update_all = true :=
  ⟨by decide, (movie_forces_full_redraw sample_video (by decide)).1,
    (movie_forces_full_redraw sample_video (by decide)).2.1⟩

theorem to_Uint32_of_nonneg (v : Int) (h0 : 0 ≤ v) (h1 : v ≤ 4294967295) : to_Uint32 v = v := by
  unfold to_Uint32
  omega

theorem sleep_budget_of_fits (rate frame_diff pause_delay : Int)
    (hfit : fits_Sint32 (rate - frame_diff + pause_delay)) :
    sleep_budget rate frame_diff pause_delay = rate - frame_diff + pause_delay := by
  unfold fits_Sint32 at hfit
  unfold sleep_budget to_Sint32 to_Uint32
  omega

theorem main_loop_body_calls (c : Context) (t : Tick) (s : Loop) (hsync : t.nosync = false) :
    (main_loop_body c t s).calls =
      s.calls ++
        ([Call.get_time_difference,
          Call.wait_next_frame
            (sleep_budget (if t.movie_playing then MOVIE_FRAME_RATE else GAME_FRAME_RATE)
              t.frame_diff s.pause_delay)
            (if t.movie_playing then MOVIE_FRAME_RATE else GAME_FRAME_RATE)] ++
         core_calls ++ (if c.USE_SDLMIXER then [Call.sound_handle] else [])) ∧
    (main_loop_body c t s).pause_delay = t.wait_result := by
  unfold main_loop_body main_loop_sync
  simp [hsync, core_calls]

theorem handle_event_quit_keep (c : Context) (g : Game) (e : SDL_Event)
    (he : is_quit e = false) : (handle_event c g e).quit_game = g.quit_game := by
  cases e <;> simp only [handle_event] <;> first
    | rfl
    | (split_ifs <;> rfl)
    | exact absurd he (by simp [is_quit])

theorem handle_event_quit_true (c : Context) (g : Game) (e : SDL_Event)
    (hq : g.quit_game = true) : (handle_event c g e).quit_game = true := by
  cases e <;> simp only [handle_event] <;> first
    | exact hq
    | rfl
    | (split_ifs <;> exact hq)

theorem display_handle_events_quit_true (c : Context) (events : List SDL_Event) :
    ∀ g : Game, g.quit_game = true → (display_handle_events c g events).quit_game = true := by
  induction events with
  | nil => intro g hq; exact hq
  | cons e es ih =>
    intro g hq
    exact ih _ (handle_event_quit_true c g e hq)

theorem display_handle_events_quit_keep (c : Context) (events : List SDL_Event) :
    ∀ g : Game, (∀ e ∈ events, is_quit e = false) →
      (display_handle_events c g events).quit_game = g.quit_game := by
  induction events with
  | nil => intro g _; rfl
  | cons e es ih =>
    intro g hall
    have h1 := ih (handle_event c g e) (fun x hx => hall x (List.mem_cons_of_mem e hx))
    have h2 := handle_event_quit_keep c g e (hall e (List.mem_cons_self e es))
    unfold display_handle_events at h1 ⊢
    rw [List.foldl_cons, h1, h2]

theorem main_loop_sync_game (t : Tick) (s : Loop) : (main_loop_sync t s).game = s.game := by
  unfold main_loop_sync
  split_ifs <;> rfl

theorem main_loop_body_quit (c : Context) (t : Tick) (s : Loop) :
    (main_loop_body c t s).game.quit_game =
      (display_handle_events c
        (if !t.update_frame then
            { quit_game := true, loops_counter := uint32_inc s.game.loops_counter,
              input := s.game.input, display := s.game.display }
          else
            { quit_game := s.game.quit_game, loops_counter := uint32_inc s.game.loops_counter,
              input := s.game.input, display := s.game.display })
        t.events).quit_game := by
  unfold main_loop_body
  simp only [main_loop_sync_game]

theorem main_loop_body_quit_stays (c : Context) (t : Tick) (s : Loop)
    (hq : s.game.quit_game = true) : (main_loop_body c t s).game.quit_game = true := by
  rw [main_loop_body_quit]
  apply display_handle_events_quit_true
  cases t.update_frame <;> simp [hq]

theorem main_loop_body_quit_requested (c : Context) (t : Tick) (s : Loop)
    (hu : t.update_frame = false) : (main_loop_body c t s).game.quit_game = true := by
  rw [main_loop_body_quit]
  apply display_handle_events_quit_true
  simp [hu]

theorem main_loop_body_quit_clear (c : Context) (t : Tick) (s : Loop)
    (hq : s.game.quit_game = false) (hu : t.update_frame = true)
    (hev : ∀ e ∈ t.events, is_quit e = false) :
    (main_loop_body c t s).game.quit_game = false := by
  rw [main_loop_body_quit, display_handle_events_quit_keep c t.events _ hev]
  simp [hu, hq]

theorem main_loop_body_core (c : Context) (t : Tick) (s : Loop) :
    ∃ added, (main_loop_body c t s).calls = s.calls ++ added ∧
      added.filter is_core_call = core_calls := by
  unfold main_loop_body main_loop_sync
  cases t.nosync <;> cases c.USE_SDLMIXER <;>
    simp only [Bool.not_false, Bool.not_true, if_true, if_false, Bool.false_eq_true,
      List.append_assoc] <;>
    refine ⟨_, rfl, ?_⟩ <;>
    simp [is_core_call, core_calls]

theorem main_loop_run_core (c : Context) :
    ∀ (ticks : List Tick) (s : Loop),
      ∃ added, (main_loop_run c ticks s).state.calls = s.calls ++ added ∧
        added.filter is_core_call = core_trace (main_loop_run c ticks s).iterations := by
  intro ticks
  induction ticks with
  | nil => intro s; exact ⟨[], by simp [main_loop_run], rfl⟩
  | cons t ts ih =>
    intro s
    obtain ⟨a1, h1, h2⟩ := main_loop_body_core c t s
    simp only [main_loop_run]
    by_cases hq : (main_loop_body c t s).game.quit_game = true
    · rw [if_pos hq]
      refine ⟨a1, h1, ?_⟩
      rw [h2]
      simp [core_trace]
    · rw [if_neg hq]
      obtain ⟨a2, h3, h4⟩ := ih (main_loop_body c t s)
      refine ⟨a1 ++ a2, ?_, ?_⟩
      · show (main_loop_run c ts (main_loop_body c t s)).state.calls = _
        rw [h3, h1, List.append_assoc]
      · show _ = core_trace ((main_loop_run c ts (main_loop_body c t s)).iterations + 1)
        rw [List.filter_append, h2, h4]
        rfl

theorem main_loop_run_finished (c : Context) :
    ∀ (ticks : List Tick) (s : Loop), (main_loop_run c ticks s).finished = true →
      (main_loop_run c ticks s).state.game.quit_game = true ∧
      ∀ extra, main_loop_run c (ticks ++ extra) s = main_loop_run c ticks s := by
  intro ticks
  induction ticks with
  | nil => intro s h; simp [main_loop_run] at h
  | cons t ts ih =>
    intro s h
    simp only [main_loop_run, List.cons_append] at h ⊢
    by_cases hq : (main_loop_body c t s).game.quit_game = true
    · simp only [hq, if_true]
      exact ⟨trivial, fun _ => trivial⟩
    · simp only [hq, if_false] at h ⊢
      obtain ⟨h1, h2⟩ := ih (main_loop_body c t s) h
      refine ⟨h1, ?_⟩
      intro extra
      rw [List.append_eq, h2 extra]

theorem main_loop_run_until (c : Context) :
    ∀ (pre : List Tick) (s : Loop) (t : Tick) (post : List Tick),
      s.game.quit_game = false →
      (∀ x ∈ pre, x.update_frame = true ∧ ∀ e ∈ x.events, is_quit e = false) →
      t.update_frame = false →
      (main_loop_run c (pre ++ t :: post) s).iterations = pre.length + 1 ∧
      (main_loop_run c (pre ++ t :: post) s).finished = true := by
  intro pre
  induction pre with
  | nil =>
    intro s t post _ _ ht
    simp [main_loop_run, main_loop_body_quit_requested c t s ht]
  | cons x pre ih =>
    intro s t post hq hpre ht
    have hx := hpre x (List.mem_cons_self x pre)
    have hclear := main_loop_body_quit_clear c x s hq hx.1 hx.2
    simp only [List.cons_append, main_loop_run, hclear, Bool.false_eq_true, if_false,
      List.length_cons, List.append_eq]
    obtain ⟨h1, h2⟩ := ih (main_loop_body c x s) t post hclear
      (fun y hy => hpre y (List.mem_cons_of_mem x hy)) ht
    exact ⟨by rw [h1], h2⟩

theorem key_status_space (rc pn : Bool) (ms so : Int) (k : SDL_Scancode → Nat)
    (keys_down : Key → Nat) :
    key_status rc pn ms so k keys_down K_SPACE =
      if k SDL_SCANCODE_RETURN ≠ 0 ∧ pn = false ∧ ms ≠ so then
        (k SDL_SCANCODE_SPACE ||| k SDL_SCANCODE_KP_0) ||| k SDL_SCANCODE_RETURN
      else k SDL_SCANCODE_SPACE ||| k SDL_SCANCODE_KP_0 := by
  unfold key_status
  split_ifs <;> simp [assign]

/-- C15: for every keyboard snapshot whose entries for Space, keypad 0 and
Return are 0 or 1 and every context, after key_status the logical fire key
keys_down[K_SPACE] is non-zero exactly when Space is down, or keypad 0 is
down, or Return is down while is_playername_input() is false and
menu_section differs from SECTION_ORDER; with Space and keypad 0 up, it is
0 while player-name entry or the order screen is active. -/
theorem fire_is_union (rc pn : Bool) (ms so : Int) (k : SDL_Scancode → Nat)
    (keys_down : Key → Nat)
    (hs : k SDL_SCANCODE_SPACE = 0 ∨ k SDL_SCANCODE_SPACE = 1)
    (hk : k SDL_SCANCODE_KP_0 = 0 ∨ k SDL_SCANCODE_KP_0 = 1)
    (hr : k SDL_SCANCODE_RETURN = 0 ∨ k SDL_SCANCODE_RETURN = 1) :
    (key_status rc pn ms so k keys_down K_SPACE ≠ 0 ↔
      (k SDL_SCANCODE_SPACE = 1 ∨ k SDL_SCANCODE_KP_0 = 1 ∨
        (k SDL_SCANCODE_RETURN = 1 ∧ pn = false ∧ ms ≠ so))) ∧
    (k SDL_SCANCODE_SPACE = 0 → k SDL_SCANCODE_KP_0 = 0 → (pn = true ∨ ms = so) →
      key_status rc pn ms so k keys_down K_SPACE = 0) := by
  rw [key_status_space]
  constructor
  · rcases hs with hs | hs <;> rcases hk with hk | hk <;> rcases hr with hr | hr <;>
      simp [hs, hk, hr]
  · intro h1 h2 h3
    rcases h3 with h3 | h3
    · simp [h1, h2, h3]
    · simp [h1, h2, h3]

theorem fire_is_union_witness :
    (key_status false true 0 5 (snapshot [SDL_SCANCODE_RETURN]) (fun _ => 0) K_SPACE ≠ 0 ↔
      (snapshot [SDL_SCANCODE_RETURN] SDL_SCANCODE_SPACE = 1 ∨
        snapshot [SDL_SCANCODE_RETURN] SDL_SCANCODE_KP_0 = 1 ∨
        (snapshot [SDL_SCANCODE_RETURN] SDL_SCANCODE_RETURN = 1 ∧ true = false ∧
          (0 : Int) ≠ 5))) ∧
    (snapshot [SDL_SCANCODE_RETURN] SDL_SCANCODE_SPACE = 0 →
      snapshot [SDL_SCANCODE_RETURN] SDL_SCANCODE_KP_0 = 0 → (true = true ∨ (0 : Int) = 5) →
      key_status false true 0 5 (snapshot [SDL_SCANCODE_RETURN]) (fun _ => 0) K_SPACE = 0) :=
  fire_is_union false true 0 5 (snapshot [SDL_SCANCODE_RETURN]) (fun _ => 0)
    (by decide) (by decide) (by decide)

/-! ### Pause, joystick and key latch -/

theorem latch_invariant_step (t : PauseTrack) (p : PauseStep) (hinv : latch_invariant t)
    (hfoc : p = PauseStep.user_toggle → t.focused = true) :
    latch_invariant (pause_step t p) := by
  unfold latch_invariant at hinv ⊢
  cases p with
  | focus_loss =>
    simp only [pause_step, display_toggle_pause, toggle_pause, if_true]
    cases hp : t.input.player_pause <;> cases hl : t.input.pause_will_disable <;>
      simp_all
  | focus_gain n =>
    simp [pause_step, display_toggle_pause]
  | user_toggle =>
    have hf := hfoc rfl
    simp only [pause_step, toggle_pause]
    cases hl : t.input.pause_will_disable
    · simp
    · have := hinv hl
      simp_all

theorem pause_step_focused (t : PauseTrack) (p : PauseStep) :
    (pause_step t p).focused =
      match p with
      | PauseStep.focus_loss => false
      | PauseStep.focus_gain _ => true
      | PauseStep.user_toggle => t.focused := by
  cases p <;> rfl

theorem latch_invariant_run :
    ∀ (steps : List PauseStep) (t : PauseTrack), latch_invariant t →
      toggles_while_focused t.focused steps = true → latch_invariant (pause_run t steps) := by
  intro steps
  induction steps with
  | nil => intro t h _; exact h
  | cons p ps ih =>
    intro t hinv hfoc
    unfold pause_run
    rw [List.foldl_cons]
    apply ih (pause_step t p)
    · apply latch_invariant_step t p hinv
      intro hp
      subst hp
      simp only [toggles_while_focused, Bool.and_eq_true] at hfoc
      exact hfoc.1
    · rw [pause_step_focused]
      cases p with
      | focus_loss => simpa [toggles_while_focused] using hfoc
      | focus_gain n => simpa [toggles_while_focused] using hfoc
      | user_toggle =>
        simp only [toggles_while_focused, Bool.and_eq_true] at hfoc
        exact hfoc.2

/-- C16, as the code has it: from pause_will_disable = FALSE (and
player_pause = FALSE in particular), along every interleaving of focus-loss steps,
focus-gain steps and user pause toggles in which the user toggles the pause
only while the window has the focus, a focus-gain step changes player_pause
from TRUE to FALSE only if the pause in force was entered by a focus-loss
step. -/
theorem focus_gain_undoes_auto_pause_only (i : Input) (steps : List PauseStep) (n : Nat)
    (hl : i.pause_will_disable = false)
    (hfoc : toggles_while_focused true steps = true)
    (hpaused : (pause_run (pause_start i) steps).input.player_pause = true)
    (hun : (display_toggle_pause (pause_run (pause_start i) steps).input (n + 1)).player_pause
      = false) :
    (pause_run (pause_start i) steps).entered_by_focus_loss = true := by
  have hinv : latch_invariant (pause_run (pause_start i) steps) := by
    apply latch_invariant_run steps (pause_start i)
    · intro h
      simp [pause_start, hl] at h
    · exact hfoc
  unfold latch_invariant at hinv
  cases hlatch : (pause_run (pause_start i) steps).input.pause_will_disable
  · simp [display_toggle_pause, toggle_pause, hpaused, hlatch] at hun
  · exact (hinv hlatch).2.1

theorem focus_gain_undoes_auto_pause_only_witness :
    (pause_run (pause_start sample_input)
      [PauseStep.user_toggle, PauseStep.user_toggle, PauseStep.focus_loss]).input.player_pause
      = true ∧
    (display_toggle_pause
      (pause_run (pause_start sample_input)
        [PauseStep.user_toggle, PauseStep.user_toggle, PauseStep.focus_loss]).input
      (11 + 1)).player_pause = false ∧
    (pause_run (pause_start sample_input)
      [PauseStep.user_toggle, PauseStep.user_toggle,
        PauseStep.focus_loss]).entered_by_focus_loss = true :=
  ⟨by decide, by decide,
    focus_gain_undoes_auto_pause_only sample_input
      [PauseStep.user_toggle, PauseStep.user_toggle, PauseStep.focus_loss] 11
      rfl (by decide) (by decide) (by decide)⟩

/-- C16 as stated fails: after a focus loss the user releases the pause and
sets it again, all without focus; the pause in force was entered by the
user, and the focus-gain step still changes player_pause from TRUE to
FALSE. -/
theorem focus_gain_undoes_user_pause :
    ¬ ((pause_run (pause_start sample_input)
          [PauseStep.focus_loss, PauseStep.user_toggle,
            PauseStep.user_toggle]).input.player_pause = true →
       (display_toggle_pause
          (pause_run (pause_start sample_input)
            [PauseStep.focus_loss, PauseStep.user_toggle, PauseStep.user_toggle]).input
          (0 + 1)).player_pause = false →
       (pause_run (pause_start sample_input)
          [PauseStep.focus_loss, PauseStep.user_toggle,
            PauseStep.user_toggle]).entered_by_focus_loss = true) := by
  decide

theorem display_toggle_pause_gain (i : Input) (gain : Nat) (hg : gain ≠ 0)
    (hp : i.player_pause = false) :
    (display_toggle_pause i gain).player_pause = false ∧
    (display_toggle_pause i gain).pause_will_disable = false := by
  unfold display_toggle_pause
  rw [if_neg hg]
  simp [hp]

/-- C17, what the code does: a window event handled while player_pause is
FALSE leaves player_pause FALSE whatever its sub-event is, because
display_toggle_pause is only ever called with
SDL_WINDOWEVENT_FOCUS_GAINED, never with gain = 0; for the sub-event
SDL_WINDOWEVENT_FOCUS_LOST the game is not paused and the latch
pause_will_disable is FALSE afterwards, not set. -/
theorem focus_lost_does_not_pause (c : Context) (g : Game) (event : Nat)
    (hp : g.input.player_pause = false) :
    (handle_event c g (SDL_Event.SDL_WINDOWEVENT event)).input.player_pause = false ∧
    (handle_event c g
      (SDL_Event.SDL_WINDOWEVENT SDL_WINDOWEVENT_FOCUS_LOST)).input.player_pause = false ∧
    (handle_event c g
      (SDL_Event.SDL_WINDOWEVENT SDL_WINDOWEVENT_FOCUS_LOST)).input.pause_will_disable
      = false := by
  have hgen : ∀ (i : Input) (e : Nat), i.player_pause = false →
      (handle_windowevent i e).player_pause = false := by
    intro i e hi
    unfold handle_windowevent
    have h1 := display_toggle_pause_gain i SDL_WINDOWEVENT_FOCUS_GAINED (by decide) hi
    split_ifs with ha hb hb
    · refine (display_toggle_pause_gain _ SDL_WINDOWEVENT_FOCUS_GAINED (by decide) ?_).1
      exact h1.1
    · exact h1.1
    · refine (display_toggle_pause_gain _ SDL_WINDOWEVENT_FOCUS_GAINED (by decide) ?_).1
      exact hi
    · exact hi
  refine ⟨hgen g.input event hp, hgen g.input _ hp, ?_⟩
  show (handle_windowevent g.input SDL_WINDOWEVENT_FOCUS_LOST).pause_will_disable = false
  unfold handle_windowevent
  have h1 := display_toggle_pause_gain g.input SDL_WINDOWEVENT_FOCUS_GAINED (by decide) hp
  rw [if_pos (by decide), if_pos (by decide)]
  refine (display_toggle_pause_gain _ SDL_WINDOWEVENT_FOCUS_GAINED (by decide) ?_).2
  exact h1.1

theorem focus_lost_does_not_pause_witness :
    (handle_event sample_context sample_game
      (SDL_Event.SDL_WINDOWEVENT SDL_WINDOWEVENT_FOCUS_LOST)).input.player_pause = false ∧
    (handle_event sample_context sample_game
      (SDL_Event.SDL_WINDOWEVENT SDL_WINDOWEVENT_FOCUS_LOST)).input.pause_will_disable
      = false :=
  (focus_lost_does_not_pause sample_context sample_game SDL_WINDOWEVENT_FOCUS_LOST rfl).2

/-- C18: an axis-motion event on the configured X axis with value v leaves
(joy_left, joy_right) at (TRUE, FALSE) if v < -4096, at (FALSE, TRUE) if
v > 4096 and at (FALSE, FALSE) otherwise, the bounds -4096 and 4096
included, and leaves joy_top and joy_down as they were; an event on the
configured Y axis, distinct from the X axis, sets (joy_top, joy_down) from
v in the same way and leaves joy_left and joy_right as they were. -/
theorem axis_deadzone (c : Context) (g : Game) (v : Int)
    (hxy : c.joy_y_axis ≠ c.joy_x_axis) :
    ((handle_event c g (SDL_Event.SDL_JOYAXISMOTION c.joy_x_axis v)).input.joy_left,
      (handle_event c g (SDL_Event.SDL_JOYAXISMOTION c.joy_x_axis v)).input.joy_right) =
      (if v < -4096 then (true, false) else if v > 4096 then (false, true)
        else (false, false)) ∧
    (handle_event c g (SDL_Event.SDL_JOYAXISMOTION c.joy_x_axis v)).input.joy_top =
      g.input.joy_top ∧
    (handle_event c g (SDL_Event.SDL_JOYAXISMOTION c.joy_x_axis v)).input.joy_down =
      g.input.joy_down ∧
    ((handle_event c g (SDL_Event.SDL_JOYAXISMOTION c.joy_y_axis v)).input.joy_top,
      (handle_event c g (SDL_Event.SDL_JOYAXISMOTION c.joy_y_axis v)).input.joy_down) =
      (if v < -4096 then (true, false) else if v > 4096 then (false, true)
        else (false, false)) ∧
    (handle_event c g (SDL_Event.SDL_JOYAXISMOTION c.joy_y_axis v)).input.joy_left =
      g.input.joy_left ∧
    (handle_event c g (SDL_Event.SDL_JOYAXISMOTION c.joy_y_axis v)).input.joy_right =
      g.input.joy_right := by
  simp only [handle_event, handle_joyaxis, if_true, if_neg hxy]
  refine ⟨?_, ?_, ?_, ?_, ?_, ?_⟩ <;> split_ifs <;> rfl

theorem axis_deadzone_witness :
    ((handle_event sample_context sample_game
        (SDL_Event.SDL_JOYAXISMOTION sample_context.joy_x_axis 4096)).input.joy_left,
      (handle_event sample_context sample_game
        (SDL_Event.SDL_JOYAXISMOTION sample_context.joy_x_axis 4096)).input.joy_right) =
      (if (4096 : Int) < -4096 then (true, false) else if (4096 : Int) > 4096 then (false, true)
        else (false, false)) :=
  (axis_deadzone sample_context sample_game 4096 (by decide)).1

/-- C19: after a hat-motion event with one of the nine hat values, joy_top,
joy_right, joy_down and joy_left are TRUE exactly when the value contains
the SDL_HAT_UP, SDL_HAT_RIGHT, SDL_HAT_DOWN and SDL_HAT_LEFT bit, whatever
the flags were before; the centered value clears all four. -/
theorem hat_decoding (c : Context) (g : Game) (v : Nat)
    (hv : v ∈ [SDL_HAT_CENTERED, SDL_HAT_UP, SDL_HAT_RIGHT, SDL_HAT_DOWN, SDL_HAT_LEFT,
      SDL_HAT_RIGHTUP, SDL_HAT_RIGHTDOWN, SDL_HAT_LEFTUP, SDL_HAT_LEFTDOWN]) :
    (handle_event c g (SDL_Event.SDL_JOYHATMOTION v)).input.joy_top =
      decide (v &&& SDL_HAT_UP ≠ 0) ∧
    (handle_event c g (SDL_Event.SDL_JOYHATMOTION v)).input.joy_right =
      decide (v &&& SDL_HAT_RIGHT ≠ 0) ∧
    (handle_event c g (SDL_Event.SDL_JOYHATMOTION v)).input.joy_down =
      decide (v &&& SDL_HAT_DOWN ≠ 0) ∧
    (handle_event c g (SDL_Event.SDL_JOYHATMOTION v)).input.joy_left =
      decide (v &&& SDL_HAT_LEFT ≠ 0) := by
  simp only [List.mem_cons, List.mem_singleton, List.not_mem_nil, or_false] at hv
  rcases hv with h | h | h | h | h | h | h | h | h <;> subst h <;>
    simp [handle_event, handle_joyhat, SDL_HAT_CENTERED, SDL_HAT_UP, SDL_HAT_RIGHT,
      SDL_HAT_DOWN, SDL_HAT_LEFT, SDL_HAT_RIGHTUP, SDL_HAT_RIGHTDOWN, SDL_HAT_LEFTUP,
      SDL_HAT_LEFTDOWN] <;>
    decide

theorem hat_decoding_witness :
    (handle_event sample_context sample_game
      (SDL_Event.SDL_JOYHATMOTION SDL_HAT_LEFTUP)).input.joy_top =
      decide (SDL_HAT_LEFTUP &&& SDL_HAT_UP ≠ 0) ∧
    (handle_event sample_context sample_game
      (SDL_Event.SDL_JOYHATMOTION SDL_HAT_LEFTUP)).input.joy_right =
      decide (SDL_HAT_LEFTUP &&& SDL_HAT_RIGHT ≠ 0) ∧
    (handle_event sample_context sample_game
      (SDL_Event.SDL_JOYHATMOTION SDL_HAT_LEFTUP)).input.joy_down =
      decide (SDL_HAT_LEFTUP &&& SDL_HAT_DOWN ≠ 0) ∧
    (handle_event sample_context sample_game
      (SDL_Event.SDL_JOYHATMOTION SDL_HAT_LEFTUP)).input.joy_left =
      decide (SDL_HAT_LEFTUP &&& SDL_HAT_LEFT ≠ 0) :=
  hat_decoding sample_context sample_game SDL_HAT_LEFTUP (by decide)

/-- C20: for a key code s of SDL, a non-negative Sint32, a key-down event
sets key_code_down to s; a key-up event sets key_code_down to 0 if it
equalled s before the event and leaves it unchanged otherwise. -/
theorem key_latch (c : Context) (g : Game) (s : Int) (keys : SDL_Scancode → Nat)
    (hs : 0 ≤ s ∧ s ≤ 2147483647) :
    (handle_event c g (SDL_Event.SDL_KEYDOWN s keys)).input.key_code_down = s ∧
    (handle_event c g (SDL_Event.SDL_KEYUP s keys)).input.key_code_down =
      (if g.input.key_code_down = s then 0 else g.input.key_code_down) ∧
    (g.input.key_code_down ≠ s →
      (handle_event c g (SDL_Event.SDL_KEYUP s keys)).input.key_code_down =
        g.input.key_code_down) := by
  have hu : to_Uint32 s = s := to_Uint32_of_nonneg s hs.1 (by omega)
  simp only [handle_event, hu]
  refine ⟨trivial, trivial, ?_⟩
  intro hne
  rw [if_neg hne]

theorem key_latch_witness :
    (handle_event sample_context sample_game
      (SDL_Event.SDL_KEYDOWN 97 (snapshot [SDL_SCANCODE_A]))).input.key_code_down = 97 :=
  (key_latch sample_context sample_game 97 (snapshot [SDL_SCANCODE_A]) (by decide)).1

/-! ### Palette tables -/

theorem getD_set_eq (l : List Nat) (a t v : Nat) (ht : t < l.length) :
    (l.set a v).getD t 0 = if a = t then v else l.getD t 0 := by
  by_cases h : a = t
  · subst h
    rw [if_pos rfl]
    exact getD_set_self l a v ht
  · rw [if_neg h]
    exact getD_set_other l a t v h

theorem pal32_store_length (be : Bool) (src : List Nat) (i : Nat) (dest : List Nat) :
    (pal32_store be src i dest).length = dest.length := by
  unfold pal32_store
  cases be <;> simp

theorem pal32_store_getD (be : Bool) (src : List Nat) (i : Nat) (dest : List Nat) (t : Nat)
    (ht : t < dest.length) :
    (pal32_store be src i dest).getD t 0 =
      if 4 * i ≤ t ∧ t < 4 * i + 4 then pal32_byte be src t else dest.getD t 0 := by
  unfold pal32_store pal32_byte
  cases be
  · simp only [Bool.false_eq_true, if_false]
    rw [getD_set_eq _ _ _ _ (by simp [ht]), getD_set_eq _ _ _ _ (by simp [ht]),
      getD_set_eq _ _ _ _ (by simp [ht]), getD_set_eq _ _ _ _ ht]
    by_cases h3 : 4 * i + 3 = t
    · have e1 : t % 4 = 3 := by omega
      rw [if_pos h3, if_pos (by omega), if_pos e1]
    · rw [if_neg h3]
      by_cases h0 : 4 * i = t
      · have e1 : t % 4 = 0 := by omega
        have e2 : t / 4 = i := by omega
        rw [if_pos h0, if_pos (by omega), if_neg (by omega), e1, e2]
        rfl
      · rw [if_neg h0]
        by_cases h1 : 4 * i + 1 = t
        · have e1 : t % 4 = 1 := by omega
          have e2 : t / 4 = i := by omega
          rw [if_pos h1, if_pos (by omega), if_neg (by omega), e1, e2]
        · rw [if_neg h1]
          by_cases h2 : 4 * i + 2 = t
          · have e1 : t % 4 = 2 := by omega
            have e2 : t / 4 = i := by omega
            rw [if_pos h2, if_pos (by omega), if_neg (by omega), e1, e2]
          · rw [if_neg h2, if_neg (by omega)]
  · simp only [if_true]
    rw [getD_set_eq _ _ _ _ (by simp [ht]), getD_set_eq _ _ _ _ (by simp [ht]),
      getD_set_eq _ _ _ _ (by simp [ht]), getD_set_eq _ _ _ _ ht]
    by_cases h0 : 4 * i = t
    · have e1 : t % 4 = 0 := by omega
      rw [if_pos h0, if_pos (by omega), if_pos e1]
    · rw [if_neg h0]
      by_cases h1 : 4 * i + 1 = t
      · have e1 : t % 4 = 1 := by omega
        have e2 : t / 4 = i := by omega
        rw [if_pos h1, if_pos (by omega), if_neg (by omega), e1, e2]
        rfl
      · rw [if_neg h1]
        by_cases h2 : 4 * i + 2 = t
        · have e1 : t % 4 = 2 := by omega
          have e2 : t / 4 = i := by omega
          rw [if_pos h2, if_pos (by omega), if_neg (by omega), e1, e2]
        · rw [if_neg h2]
          by_cases h3 : 4 * i + 3 = t
          · have e1 : t % 4 = 3 := by omega
            have e2 : t / 4 = i := by omega
            rw [if_pos h3, if_pos (by omega), if_neg (by omega), e1, e2]
          · rw [if_neg h3, if_neg (by omega)]

theorem pal32_loop_length (be : Bool) (src : List Nat) :
    ∀ (n i : Nat) (dest : List Nat), (pal32_loop be src n i dest).length = dest.length := by
  intro n
  induction n with
  | zero => intro i dest; rfl
  | succ n ih =>
    intro i dest
    simp only [pal32_loop]
    rw [ih, pal32_store_length]

theorem pal32_loop_getD (be : Bool) (src : List Nat) :
    ∀ (n i : Nat) (dest : List Nat) (t : Nat), t < dest.length →
      (pal32_loop be src n i dest).getD t 0 =
        if 4 * i ≤ t ∧ t < 4 * (i + n) then pal32_byte be src t else dest.getD t 0 := by
  intro n
  induction n with
  | zero =>
    intro i dest t _
    simp only [pal32_loop]
    rw [if_neg (by omega)]
  | succ n ih =>
    intro i dest t ht
    simp only [pal32_loop]
    rw [ih (i + 1) _ t (by rw [pal32_store_length]; exact ht), pal32_store_getD be src i dest t ht]
    by_cases h1 : 4 * (i + 1) ≤ t ∧ t < 4 * (i + 1 + n)
    · rw [if_pos h1, if_pos (by omega)]
    · rw [if_neg h1]
      by_cases h2 : 4 * i ≤ t ∧ t < 4 * i + 4
      · rw [if_pos h2, if_pos (by omega)]
      · rw [if_neg h2, if_neg (by omega)]

theorem and_shiftRight (a m s : Nat) : (a &&& m) >>> s = (a >>> s) &&& (m >>> s) := by
  apply Nat.eq_of_testBit_eq
  intro i
  simp [Nat.testBit_shiftRight, Nat.testBit_and]

theorem and_high_byte (v : Nat) (hv : v < 2 ^ 24) : v &&& 0xff000000 = 0 := by
  apply Nat.eq_of_testBit_eq
  intro i
  rw [Nat.testBit_and, Nat.zero_testBit]
  by_cases hi : i < 24
  · have hm : (0xff000000 : Nat).testBit i = false := by
      interval_cases i <;> decide
    rw [hm, Bool.and_false]
  · have hvb : v.testBit i = false :=
      Nat.testBit_lt_two_pow
        (Nat.lt_of_lt_of_le hv (Nat.pow_le_pow_right (by decide) (by omega)))
    rw [hvb, Bool.false_and]

theorem channels_of_bytes (x0 x1 x2 : Nat) (h0 : x0 < 256) (h1 : x1 < 256) (h2 : x2 < 256) :
    channel (x0 + x1 * 256 + x2 * 65536) 0x000000ff = x0 ∧
    channel (x0 + x1 * 256 + x2 * 65536) 0x0000ff00 = x1 ∧
    channel (x0 + x1 * 256 + x2 * 65536) 0x00ff0000 = x2 ∧
    (x0 + x1 * 256 + x2 * 65536) &&& 0xff000000 = 0 := by
  have s0 : mask_shift 0x000000ff = 0 := by decide
  have s1 : mask_shift 0x0000ff00 = 8 := by decide
  have s2 : mask_shift 0x00ff0000 = 16 := by decide
  have m0 : (0x000000ff : Nat) >>> 0 = 2 ^ 8 - 1 := by decide
  have m1 : (0x0000ff00 : Nat) >>> 8 = 2 ^ 8 - 1 := by decide
  have m2 : (0x00ff0000 : Nat) >>> 16 = 2 ^ 8 - 1 := by decide
  unfold channel
  refine ⟨?_, ?_, ?_, ?_⟩
  · rw [s0, and_shiftRight, m0, Nat.and_pow_two_sub_one_eq_mod, Nat.shiftRight_eq_div_pow]
    omega
  · rw [s1, and_shiftRight, m1, Nat.and_pow_two_sub_one_eq_mod, Nat.shiftRight_eq_div_pow]
    omega
  · rw [s2, and_shiftRight, m2, Nat.and_pow_two_sub_one_eq_mod, Nat.shiftRight_eq_div_pow]
    omega
  · apply and_high_byte
    omega

theorem palette_byte_lt (src : List Nat) (hpal : src.length = 768)
    (hbyte : ∀ x ∈ src, x < 256) (j : Nat) (hj : j < 768) : src.getD j 0 < 256 := by
  rw [getD_of_lt src j (by omega)]
  exact hbyte _ (List.getElem_mem _)

theorem pal32_byte_entry (be : Bool) (src : List Nat) (i : Nat) :
    pal32_byte be src (4 * i) = (if be then 0 else src.getD (3 * i) 0) ∧
    pal32_byte be src (4 * i + 1) =
      (if be then src.getD (3 * i) 0 else src.getD (3 * i + 1) 0) ∧
    pal32_byte be src (4 * i + 2) =
      (if be then src.getD (3 * i + 1) 0 else src.getD (3 * i + 2) 0) ∧
    pal32_byte be src (4 * i + 3) = (if be then src.getD (3 * i + 2) 0 else 0) := by
  have a0 : 4 * i % 4 = 0 := by omega
  have a1 : (4 * i + 1) % 4 = 1 := by omega
  have a2 : (4 * i + 2) % 4 = 2 := by omega
  have a3 : (4 * i + 3) % 4 = 3 := by omega
  have d0 : 4 * i / 4 = i := by omega
  have d1 : (4 * i + 1) / 4 = i := by omega
  have d2 : (4 * i + 2) / 4 = i := by omega
  have d3 : (4 * i + 3) / 4 = i := by omega
  unfold pal32_byte
  rw [a0, a1, a2, a3, d0, d1, d2, d3]
  cases be <;> simp

/-- C21: for every palette of 256 RGB byte triples and every index i below
256, a call of create_palettes with bytes_per_pixel 3 or 4 (depth 24 or
32), the table pal32 being allocated already or its allocation succeeding,
returns TRUE and leaves in pal32[i] a value whose red, green and blue
channels under the masks of get_rgb_mask for that depth and byte order are
exactly palette_24[3i], palette_24[3i+1] and palette_24[3i+2], with the
bits outside the three masks 0; every byte of the table is written, so
nothing of its content before the call remains. -/
theorem pal32_round_trip (e : PaletteEnv) (p : Palettes) (m : List Nat) (i : Nat)
    (hbpp : p.bytes_per_pixel = 3 ∨ p.bytes_per_pixel = 4)
    (hdepth : p.bits_per_pixel = 24 ∨ p.bits_per_pixel = 32)
    (hpal : p.palette_24.length = 768) (hbyte : ∀ x ∈ p.palette_24, x < 256)
    (hmem : table_or_allocate e p.pal32 (256 * 4) = some m) (hlen : m.length = 1024)
    (hi : i < 256) :
    ∃ table, create_palettes e p = (true, { p with pal32 := some table }) ∧
      table.length = 1024 ∧
      channel (read_Uint32 e.big_endian table i)
        (get_rgb_mask e.big_endian p.bits_per_pixel).1 = p.palette_24.getD (3 * i) 0 ∧
      channel (read_Uint32 e.big_endian table i)
        (get_rgb_mask e.big_endian p.bits_per_pixel).2.1 = p.palette_24.getD (3 * i + 1) 0 ∧
      channel (read_Uint32 e.big_endian table i)
        (get_rgb_mask e.big_endian p.bits_per_pixel).2.2 = p.palette_24.getD (3 * i + 2) 0 ∧
      outside_masks (read_Uint32 e.big_endian table i)
        (get_rgb_mask e.big_endian p.bits_per_pixel) = 0 ∧
      ∀ t, t < 1024 → table.getD t 0 = pal32_byte e.big_endian p.palette_24 t := by
  have hcreate : create_palettes e p =
      (true, { p with pal32 := some (pal32_loop e.big_endian p.palette_24 256 0 m) }) := by
    unfold create_palettes
    rw [if_neg (by omega), if_neg (by omega), if_pos (by omega), hmem]
  have hbytes : ∀ t, t < 1024 →
      (pal32_loop e.big_endian p.palette_24 256 0 m).getD t 0 =
        pal32_byte e.big_endian p.palette_24 t := by
    intro t ht
    rw [pal32_loop_getD e.big_endian p.palette_24 256 0 m t (by omega), if_pos (by omega)]
  have hmask : get_rgb_mask e.big_endian p.bits_per_pixel =
      (if e.big_endian then (0x00ff0000, 0x0000ff00, 0x000000ff)
        else (0x000000ff, 0x0000ff00, 0x00ff0000)) := by
    unfold get_rgb_mask
    rw [if_neg (by omega), if_neg (by omega)]
  have hr := palette_byte_lt p.palette_24 hpal hbyte (3 * i) (by omega)
  have hg := palette_byte_lt p.palette_24 hpal hbyte (3 * i + 1) (by omega)
  have hb := palette_byte_lt p.palette_24 hpal hbyte (3 * i + 2) (by omega)
  obtain ⟨e0, e1, e2, e3⟩ := pal32_byte_entry e.big_endian p.palette_24 i
  refine ⟨_, hcreate, ?_, ?_⟩
  · rw [pal32_loop_length]; exact hlen
  · have hv : read_Uint32 e.big_endian (pal32_loop e.big_endian p.palette_24 256 0 m) i =
        (if e.big_endian then
          p.palette_24.getD (3 * i + 2) 0 + p.palette_24.getD (3 * i + 1) 0 * 256 +
            p.palette_24.getD (3 * i) 0 * 65536
        else
          p.palette_24.getD (3 * i) 0 + p.palette_24.getD (3 * i + 1) 0 * 256 +
            p.palette_24.getD (3 * i + 2) 0 * 65536) := by
      unfold read_Uint32
      rw [hbytes (4 * i) (by omega), hbytes (4 * i + 1) (by omega),
        hbytes (4 * i + 2) (by omega), hbytes (4 * i + 3) (by omega), e0, e1, e2, e3]
      cases e.big_endian
      · simp only [Bool.false_eq_true, if_false]
        omega
      · simp only [if_true]
        omega
    have hall :
        channel (read_Uint32 e.big_endian (pal32_loop e.big_endian p.palette_24 256 0 m) i)
          (get_rgb_mask e.big_endian p.bits_per_pixel).1 = p.palette_24.getD (3 * i) 0 ∧
        channel (read_Uint32 e.big_endian (pal32_loop e.big_endian p.palette_24 256 0 m) i)
          (get_rgb_mask e.big_endian p.bits_per_pixel).2.1 =
          p.palette_24.getD (3 * i + 1) 0 ∧
        channel (read_Uint32 e.big_endian (pal32_loop e.big_endian p.palette_24 256 0 m) i)
          (get_rgb_mask e.big_endian p.bits_per_pixel).2.2 =
          p.palette_24.getD (3 * i + 2) 0 ∧
        outside_masks
          (read_Uint32 e.big_endian (pal32_loop e.big_endian p.palette_24 256 0 m) i)
          (get_rgb_mask e.big_endian p.bits_per_pixel) = 0 := by
      rw [hv, hmask]
      unfold outside_masks
      cases e.big_endian
      · simp only [Bool.false_eq_true, if_false]
        obtain ⟨c0, c1, c2, c3⟩ := channels_of_bytes _ _ _ hr hg hb
        have hx : (0xffffffff : Nat) ^^^ (0x000000ff ||| 0x0000ff00 ||| 0x00ff0000) =
            0xff000000 := by decide
        rw [hx]
        exact ⟨c0, c1, c2, c3⟩
      · simp only [if_true]
        obtain ⟨c0, c1, c2, c3⟩ := channels_of_bytes _ _ _ hb hg hr
        have hx : (0xffffffff : Nat) ^^^ (0x00ff0000 ||| 0x0000ff00 ||| 0x000000ff) =
            0xff000000 := by decide
        rw [hx]
        exact ⟨c2, c1, c0, c3⟩
    exact ⟨hall.1, hall.2.1, hall.2.2.1, hall.2.2.2, hbytes⟩

theorem sample_palette_24_length : sample_palette_24.length = 768 := by
  unfold sample_palette_24
  rw [List.length_map, List.length_range]

theorem sample_palette_24_bytes : ∀ x ∈ sample_palette_24, x < 256 := by
  intro x hx
  unfold sample_palette_24 at hx
  rw [List.mem_map] at hx
  obtain ⟨a, _, ha⟩ := hx
  have hmod : a % 256 = x := ha
  omega

theorem pal32_round_trip_witness :
    ∃ table, create_palettes sample_palette_env sample_palettes =
        (true, { sample_palettes with pal32 := some table }) ∧
      table.length = 1024 ∧
      channel (read_Uint32 sample_palette_env.big_endian table 200)
        (get_rgb_mask sample_palette_env.big_endian sample_palettes.bits_per_pixel).1 =
        sample_palettes.palette_24.getD (3 * 200) 0 ∧
      channel (read_Uint32 sample_palette_env.big_endian table 200)
        (get_rgb_mask sample_palette_env.big_endian sample_palettes.bits_per_pixel).2.1 =
        sample_palettes.palette_24.getD (3 * 200 + 1) 0 ∧
      channel (read_Uint32 sample_palette_env.big_endian table 200)
        (get_rgb_mask sample_palette_env.big_endian sample_palettes.bits_per_pixel).2.2 =
        sample_palettes.palette_24.getD (3 * 200 + 2) 0 ∧
      outside_masks (read_Uint32 sample_palette_env.big_endian table 200)
        (get_rgb_mask sample_palette_env.big_endian sample_palettes.bits_per_pixel) = 0 ∧
      ∀ t, t < 1024 →
        table.getD t 0 =
          pal32_byte sample_palette_env.big_endian sample_palettes.palette_24 t :=
  pal32_round_trip sample_palette_env sample_palettes (List.replicate 1024 205) 200
    (by decide) (by decide) sample_palette_24_length sample_palette_24_bytes
    rfl (List.length_replicate 1024 205) (by decide)

/-! ### The null handle and the letter keys -/

theorem free_surface_loop_null (s : Registry) :
    ∀ n i j, i ≤ j → j < i + n → s.surfaces_list.getD j 0 = 0 →
      free_surface_loop 0 s n i = none := by
  intro n
  induction n with
  | zero => intro i j h1 h2; omega
  | succ n ih =>
    intro i j h1 h2 hj
    simp only [free_surface_loop]
    by_cases hi : s.surfaces_list.getD i 0 = 0
    · rw [if_pos hi]
      rfl
    · rw [if_neg hi]
      have hij : i ≠ j := by
        intro e; subst e; exact hi hj
      exact ih (i + 1) j (by omega) (by omega) hj

/-- C22, what the code does: in a registry with at least one empty slot,
free_surface(NULL) stops at the first empty slot, which equals its
argument, and reads the fields w and h through the NULL pointer; so does
destroy_movie_offscreen when movie_offscreen is non-null and movie_surface
is NULL. The call leaves the registry alone only when all 100 slots are
occupied. -/
theorem free_surface_null_reads_null (s full : Registry) (v : Video) (j k : Nat)
    (hj : j < MAX_OF_SURFACES) (h0 : s.surfaces_list.getD j 0 = 0)
    (hoff : v.movie_offscreen ≠ 0) (hms : v.display.movie_surface = 0)
    (hk : k < MAX_OF_SURFACES) (hk0 : v.registry.surfaces_list.getD k 0 = 0)
    (hlen : full.surfaces_list.length = MAX_OF_SURFACES) (hfull : is_full full) :
    free_surface s 0 = none ∧
    destroy_movie_offscreen v = none ∧
    free_surface full 0 = some full := by
  refine ⟨?_, ?_, ?_⟩
  · exact free_surface_loop_null s MAX_OF_SURFACES 0 j (Nat.zero_le j) (by omega) h0
  · have hnone : free_surface v.registry 0 = none :=
      free_surface_loop_null v.registry MAX_OF_SURFACES 0 k (Nat.zero_le k) (by omega) hk0
    unfold destroy_movie_offscreen
    rw [if_pos hoff, hms, hnone]
  · apply free_surface_absent full 0 hlen
    intro hmem
    exact hfull 0 hmem rfl

theorem free_surface_null_reads_null_witness :
    free_surface (display_init startup) 0 = none ∧
    destroy_movie_offscreen
      { registry := display_init startup, movie_offscreen := 77,
        display := sample_display false (-1) false false false false false } = none ∧
    free_surface (Registry.mk (List.range' 1 100) 100) 0 =
      some (Registry.mk (List.range' 1 100) 100) :=
  free_surface_null_reads_null (display_init startup) (Registry.mk (List.range' 1 100) 100)
    { registry := display_init startup, movie_offscreen := 77,
      display := sample_display false (-1) false false false false false }
    0 0 (by decide) (by decide) (by decide) rfl (by decide) (by decide) (by decide)
    (by decide)

/-- C23, what the code does: after key_status the entry keys_down[K_Q]
equals the state of the physical G key, k[SDL_SCANCODE_G], as
keys_down[K_G] does, and does not depend on the physical Q key: with only Q
down it is 0, and with only G down it is 1. -/
theorem key_q_reads_g (rc pn : Bool) (ms so : Int) (k : SDL_Scancode → Nat)
    (keys_down : Key → Nat) :
    key_status rc pn ms so k keys_down K_Q = k SDL_SCANCODE_G ∧
    key_status rc pn ms so k keys_down K_G = k SDL_SCANCODE_G ∧
    key_status false false 0 5 (snapshot [SDL_SCANCODE_Q]) (fun _ => 0) K_Q = 0 ∧
    key_status false false 0 5 (snapshot [SDL_SCANCODE_G]) (fun _ => 0) K_Q = 1 := by
  refine ⟨?_, ?_, by decide, by decide⟩
  · unfold key_status
    split_ifs <;> simp_all [assign]
  · unfold key_status
    split_ifs <;> simp_all [assign]

end Mangadualist
